import Mathlib

/-!
# Adafruit LSM303DLHC unified driver: register decoding, gain scaling, descriptors

A shallow embedding of `Adafruit_LSM303_U.cpp`.

* Machine integers are `Nat`/`Int` with explicit reduction (`toByte`, `toInt16`). The word
  `lo | (hi << 8)` of two bytes is formed in `Nat`; the `int16_t` cast that follows it in the
  source reduces it modulo 2^16, which is also what an `int` of 16 bits leaves.
* A `float` is binary32: a value is the rational it stands for, and every floating operation
  and float constant is its exact result rounded to the nearest binary32 value, ties to even
  (`toFloat`, `fmul`, `fdiv`). Infinities and NaN have no rational value: an overflow and a
  division by zero are outside the model. The operands of this driver (raw samples of 16 bits,
  the scale table, 0.001F, 9.80665F and 100) keep every result below 2^15.
* The two file-level variables that `setMagGain` assigns live in `World`, together with the
  trace of calls made on the `Wire` bus object; every method is a function of the world and
  of the object it is called on.
* The constants declared in the headers (`Adafruit_LSM303_U.h`, `Adafruit_Sensor.h`) are not
  part of the translated file; they are the fields of `Header`.
-/

namespace LSM303

/-! ## Machine integers -/

/-- Conversion to `byte` / `uint8_t`: reduction modulo 2^8. -/
def toByte (n : Nat) : Nat := n % 2 ^ 8

/-- The cast `(int16_t) v`: the representative of `v` modulo 2^16 in -32768..32767. -/
def toInt16 (v : Int) : Int :=
  let m := v % 2 ^ 16
  if m < 2 ^ 15 then m else m - 2 ^ 16

/-- The conversion to `int32_t`: the representative of `v` modulo 2^32 in -2^31..2^31-1. -/
def toInt32 (v : Int) : Int :=
  let m := v % 2 ^ 32
  if m < 2 ^ 31 then m else m - 2 ^ 32

/-! ## binary32 arithmetic -/

/-- Floor of the binary logarithm of `n`, by at most `fuel` halvings. -/
def log2Fuel : Nat → Nat → Nat
  | 0, _ => 0
  | fuel + 1, n => if n < 2 then 0 else log2Fuel fuel (n / 2) + 1

/-- Floor of the binary logarithm; 0 for 0. -/
def ilog2 (n : Nat) : Nat := log2Fuel n n

/-- The integer nearest to a / b, a tie going to the even one. -/
def roundHalfEven (a b : Nat) : Nat :=
  let q := a / b
  let r := a % b
  if 2 * r < b then q
  else if b < 2 * r then q + 1
  else if q % 2 = 0 then q else q + 1

/-- Numerator and denominator of a / d * 2^(-k). -/
def scaled (a d : Nat) (k : Int) : Nat × Nat :=
  if k ≤ 0 then (a * 2 ^ (-k).toNat, d) else (a, d * 2 ^ k.toNat)

/-- The significand m and the exponent k of the binary32 value m * 2^k nearest to a / d, for
positive a and d: k is chosen with 2^23 ≤ a / d * 2^(-k) < 2^24, but not below -149, the
exponent of the subnormal numbers; the scaled value is rounded to an integer, and a
significand rounded up to 2^24 is renormalised. -/
def roundSig (a d : Nat) : Nat × Int :=
  let k0 : Int := (ilog2 a : Int) - (ilog2 d : Int) - 23
  let k1 : Int := if (scaled a d k0).1 < 2 ^ 23 * (scaled a d k0).2 then k0 - 1 else k0
  let k : Int := if k1 < -149 then -149 else k1
  let m := roundHalfEven (scaled a d k).1 (scaled a d k).2
  if m = 2 ^ 24 then (2 ^ 23, k + 1) else (m, k)

/-- Rounding of a rational to the nearest binary32 value, ties to even: the `float` that a
float constant denotes and that a floating operation yields from its exact result. It is
that value whenever the result is finite, that is below 2^128 in magnitude. -/
def toFloat (x : ℚ) : ℚ :=
  if x = 0 then 0
  else
    let r := roundSig x.num.natAbs x.den
    (if x < 0 then -1 else 1) * (r.1 : ℚ) * 2 ^ r.2

/-- The product `x * y` of two `float` values. -/
def fmul (x y : ℚ) : ℚ := toFloat (x * y)

/-- The quotient `x / y` of two `float` values, `y` not zero. -/
def fdiv (x y : ℚ) : ℚ := toFloat (x / y)

/-! ## Header constants -/

/-- The constants the source takes from its headers. -/
structure Header where
  LSM303_ADDRESS_ACCEL : Nat
  LSM303_ADDRESS_MAG : Nat
  LSM303_REGISTER_ACCEL_CTRL_REG1_A : Nat
  LSM303_REGISTER_ACCEL_OUT_X_L_A : Nat
  LSM303_REGISTER_MAG_CRA_REG_M : Nat
  LSM303_REGISTER_MAG_CRB_REG_M : Nat
  LSM303_REGISTER_MAG_MR_REG_M : Nat
  LSM303_REGISTER_MAG_OUT_X_H_M : Nat
  LSM303_MAGGAIN_1_3 : Nat
  LSM303_MAGGAIN_1_9 : Nat
  LSM303_MAGGAIN_2_5 : Nat
  LSM303_MAGGAIN_4_0 : Nat
  LSM303_MAGGAIN_4_7 : Nat
  LSM303_MAGGAIN_5_6 : Nat
  LSM303_MAGGAIN_8_1 : Nat
  SENSOR_TYPE_ACCELEROMETER : Nat
  SENSOR_TYPE_MAGNETIC_FIELD : Nat
  /-- The value of `sizeof(sensors_event_t)`. -/
  sizeof_sensors_event_t : Nat
  /-- The value of `sizeof(sensor->name)`. -/
  sizeof_name : Nat

/-- The enumerators of `lsm303MagGain`, in the order of the `case` labels of `setMagGain`. -/
def Header.magGains (H : Header) : List Nat :=
  [H.LSM303_MAGGAIN_1_3, H.LSM303_MAGGAIN_1_9, H.LSM303_MAGGAIN_2_5, H.LSM303_MAGGAIN_4_0,
   H.LSM303_MAGGAIN_4_7, H.LSM303_MAGGAIN_5_6, H.LSM303_MAGGAIN_8_1]

/-- The `case` labels of a `switch` are pairwise different (the compiler rejects a duplicate). -/
def Header.DistinctGains (H : Header) : Prop := H.magGains.Nodup

instance (H : Header) : Decidable H.DistinctGains := by
  unfold Header.DistinctGains; infer_instance

/-- The values of the chip's data sheet, used as the concrete header in the examples. -/
def dlhc : Header where
  LSM303_ADDRESS_ACCEL := 0x19
  LSM303_ADDRESS_MAG := 0x1E
  LSM303_REGISTER_ACCEL_CTRL_REG1_A := 0x20
  LSM303_REGISTER_ACCEL_OUT_X_L_A := 0x28
  LSM303_REGISTER_MAG_CRA_REG_M := 0x00
  LSM303_REGISTER_MAG_CRB_REG_M := 0x01
  LSM303_REGISTER_MAG_MR_REG_M := 0x02
  LSM303_REGISTER_MAG_OUT_X_H_M := 0x03
  LSM303_MAGGAIN_1_3 := 0x20
  LSM303_MAGGAIN_1_9 := 0x40
  LSM303_MAGGAIN_2_5 := 0x60
  LSM303_MAGGAIN_4_0 := 0x80
  LSM303_MAGGAIN_4_7 := 0xA0
  LSM303_MAGGAIN_5_6 := 0xC0
  LSM303_MAGGAIN_8_1 := 0xE0
  SENSOR_TYPE_ACCELEROMETER := 1
  SENSOR_TYPE_MAGNETIC_FIELD := 2
  sizeof_sensors_event_t := 36
  sizeof_name := 12

/-- Modelled from the spec: `SENSORS_GRAVITY_STANDARD` is declared in `Adafruit_Sensor.h`,
which is not part of the translated file; the spec gives "Standard gravity constant: 9.80665",
here the `float` constant 9.80665F. -/
def SENSORS_GRAVITY_STANDARD : ℚ := toFloat (980665 / 100000)

/-- Modelled from the spec: `SENSORS_GAUSS_TO_MICROTESLA` is declared in `Adafruit_Sensor.h`,
which is not part of the translated file; the spec gives "Gauss-to-microtesla conversion
constant: ×100"; the integer 100 is a binary32 value. -/
def SENSORS_GAUSS_TO_MICROTESLA : ℚ := 100

/-- The file-level `static float _lsm303Accel_MG_LSB = 0.001F`, the binary32 value nearest to
0.001; no statement of the file assigns it. -/
def _lsm303Accel_MG_LSB : ℚ := toFloat (1 / 1000)

/-! ## The world outside the objects -/

/-- A call on the `Wire` object that puts something on the bus. -/
inductive WireCall
  | begin
  | beginTransmission (address : Nat)
  | write (data : Nat)
  | endTransmission
  | requestFrom (address quantity : Nat)
  deriving DecidableEq, Repr

/-- The file-level variables that are assigned, each holding the value of a `float`, and the
trace of bus calls so far. -/
structure World where
  _lsm303Mag_Gauss_LSB_XY : ℚ
  _lsm303Mag_Gauss_LSB_Z : ℚ
  wire : List WireCall
  deriving DecidableEq

/-- The world at program start: the initialisers of the file-level variables, an idle bus. -/
def World.init : World :=
  { _lsm303Mag_Gauss_LSB_XY := 1100, _lsm303Mag_Gauss_LSB_Z := 980, wire := [] }

/-- One more bus call. -/
def World.call (w : World) (c : WireCall) : World := { w with wire := w.wire ++ [c] }

/-- The body shared by both `write8` methods: a two-byte transmission to `address`. -/
def write8 (address reg value : Nat) (w : World) : World :=
  let address := toByte address
  let reg := toByte reg
  let value := toByte value
  let w := w.call (.beginTransmission address)
  let w := w.call (.write (toByte reg))
  let w := w.call (.write (toByte value))
  w.call .endTransmission

/-! ## Output structures -/

/-- Three `float` members, each the value it holds. -/
structure sensors_vec_t where
  x : ℚ
  y : ℚ
  z : ℚ
  deriving DecidableEq

/-- The event structure; `data` is the storage that the union members `acceleration` and
`magnetic` both name. -/
structure sensors_event_t where
  version : Nat
  sensor_id : Int
  type : Nat
  timestamp : Int
  data : sensors_vec_t
  deriving DecidableEq

/-- Union member `acceleration`. -/
def sensors_event_t.acceleration (e : sensors_event_t) : sensors_vec_t := e.data

/-- Union member `magnetic`. -/
def sensors_event_t.magnetic (e : sensors_event_t) : sensors_vec_t := e.data

/-- The result of `memset(event, 0, sizeof(sensors_event_t))`. -/
def sensors_event_t.zero : sensors_event_t :=
  { version := 0, sensor_id := 0, type := 0, timestamp := 0, data := ⟨0, 0, 0⟩ }

/-- The descriptor structure; `name` is the character array, one entry per byte. -/
structure sensor_t where
  name : List Char
  version : Int
  sensor_id : Int
  type : Nat
  max_value : ℚ
  min_value : ℚ
  resolution : ℚ
  min_delay : Int
  deriving DecidableEq

/-- The NUL character. -/
def NUL : Char := Char.ofNat 0

/-- The result of `memset(sensor, 0, sizeof(sensor_t))` for a name array of `n` bytes. -/
def sensor_t.zero (n : Nat) : sensor_t :=
  { name := List.replicate n NUL, version := 0, sensor_id := 0, type := 0,
    max_value := 0, min_value := 0, resolution := 0, min_delay := 0 }

/-- The library function `strncpy(dest, src, n)`: the first `n` bytes of `dest` become the
characters of `src` up to its end, then NUL bytes. -/
def strncpy (dest : List Char) (src : String) (n : Nat) : List Char :=
  ((src.toList ++ List.replicate n NUL).take n) ++ dest.drop n

/-- The C string held by a character array: the characters before the first NUL. -/
def cstr (a : List Char) : List Char := a.takeWhile (fun c => c != NUL)

/-! ## Accelerometer -/

structure lsm303AccelData where
  x : Int
  y : Int
  z : Int
  deriving DecidableEq

/-- The data members of the accelerometer class. -/
structure Adafruit_LSM303_Accel_Unified where
  _sensorID : Int
  _accelDataRate : Nat
  _accelData : lsm303AccelData
  deriving DecidableEq

namespace Adafruit_LSM303_Accel_Unified

/-- The constructor: `_sensorID` is set, the other members keep what the storage `mem` held. -/
def new (sensorID : Int) (mem : Adafruit_LSM303_Accel_Unified) : Adafruit_LSM303_Accel_Unified :=
  { mem with _sensorID := sensorID }

/-- Method `read()`. `resp` is what the device sends back after `requestFrom`; with fewer than
six bytes the loop `while (Wire.available() < 6);` never ends, which is `none`. -/
def read (H : Header) (resp : List Nat) (w : World) (self : Adafruit_LSM303_Accel_Unified) :
    Option (World × Adafruit_LSM303_Accel_Unified) :=
  let w := w.call (.beginTransmission (toByte H.LSM303_ADDRESS_ACCEL))
  let w := w.call (.write (toByte (H.LSM303_REGISTER_ACCEL_OUT_X_L_A ||| 0x80)))
  let w := w.call .endTransmission
  let w := w.call (.requestFrom (toByte H.LSM303_ADDRESS_ACCEL) (toByte 6))
  match resp with
  | r0 :: r1 :: r2 :: r3 :: r4 :: r5 :: _ =>
    let xlo := toByte r0
    let xhi := toByte r1
    let ylo := toByte r2
    let yhi := toByte r3
    let zlo := toByte r4
    let zhi := toByte r5
    some (w, { self with
      _accelData :=
        { x := toInt16 ((xlo ||| (xhi <<< 8) : Nat) : Int) >>> (4 : Nat)
          y := toInt16 ((ylo ||| (yhi <<< 8) : Nat) : Int) >>> (4 : Nat)
          z := toInt16 ((zlo ||| (zhi <<< 8) : Nat) : Int) >>> (4 : Nat) } })
  | _ => none

/-- Method `setAccelDataRate(dataRate)`. -/
def setAccelDataRate (H : Header) (dataRate : Nat) (w : World)
    (self : Adafruit_LSM303_Accel_Unified) : World × Adafruit_LSM303_Accel_Unified :=
  let w := write8 H.LSM303_ADDRESS_ACCEL H.LSM303_REGISTER_ACCEL_CTRL_REG1_A dataRate w
  (w, { self with _accelDataRate := dataRate })

/-- Method `begin(dataRate)`; the first component is the returned `bool`. -/
def begin (H : Header) (dataRate : Nat) (w : World) (self : Adafruit_LSM303_Accel_Unified) :
    Bool × World × Adafruit_LSM303_Accel_Unified :=
  let w := w.call .begin
  let (w, self) := setAccelDataRate H dataRate w self
  (true, w, self)

/-- Method `getEvent(event)`; `now` is what `millis()` returns. The raw axes are integers of
16 bits, which a `float` holds exactly; each product or quotient is a binary32 operation. -/
def getEvent (H : Header) (resp : List Nat) (now : Nat) (w : World)
    (self : Adafruit_LSM303_Accel_Unified) :
    Option (sensors_event_t × World × Adafruit_LSM303_Accel_Unified) :=
  let event := sensors_event_t.zero
  match read H resp w self with
  | none => none
  | some (w, self) =>
    let event := { event with version := H.sizeof_sensors_event_t }
    let event := { event with sensor_id := self._sensorID }
    let event := { event with type := H.SENSOR_TYPE_ACCELEROMETER }
    let event := { event with timestamp := toInt32 now }
    let event := { event with data := { event.data with
      x := fmul (fmul self._accelData.x _lsm303Accel_MG_LSB) SENSORS_GRAVITY_STANDARD } }
    let event := { event with data := { event.data with
      y := fmul (fmul self._accelData.y _lsm303Accel_MG_LSB) SENSORS_GRAVITY_STANDARD } }
    let event := { event with data := { event.data with
      z := fmul (fmul self._accelData.z _lsm303Accel_MG_LSB) SENSORS_GRAVITY_STANDARD } }
    some (event, w, self)

/-- Method `getSensor(sensor)`. -/
def getSensor (H : Header) (w : World) (self : Adafruit_LSM303_Accel_Unified) :
    sensor_t × World × Adafruit_LSM303_Accel_Unified :=
  let sensor := sensor_t.zero H.sizeof_name
  let sensor := { sensor with name := strncpy sensor.name "LSM303" (H.sizeof_name - 1) }
  let sensor := { sensor with name := sensor.name.set (H.sizeof_name - 1) NUL }
  let sensor := { sensor with version := 1 }
  let sensor := { sensor with sensor_id := self._sensorID }
  let sensor := { sensor with type := H.SENSOR_TYPE_ACCELEROMETER }
  let sensor := { sensor with min_delay := 0 }
  let sensor := { sensor with max_value := 0 }
  let sensor := { sensor with min_value := 0 }
  let sensor := { sensor with resolution := 0 }
  (sensor, w, self)

end Adafruit_LSM303_Accel_Unified

/-! ## Magnetometer -/

structure lsm303MagData where
  x : Int
  y : Int
  z : Int
  orientation : ℚ
  deriving DecidableEq

/-- The data members of the magnetometer class. -/
structure Adafruit_LSM303_Mag_Unified where
  _sensorID : Int
  _magGain : Nat
  _magDataRate : Nat
  _magData : lsm303MagData
  deriving DecidableEq

namespace Adafruit_LSM303_Mag_Unified

/-- The constructor: `_sensorID` is set, the other members keep what the storage `mem` held. -/
def new (sensorID : Int) (mem : Adafruit_LSM303_Mag_Unified) : Adafruit_LSM303_Mag_Unified :=
  { mem with _sensorID := sensorID }

/-- Method `read()`. `resp` is what the device sends back after `requestFrom`; with fewer than
six bytes the loop `while (Wire.available() < 6);` never ends, which is `none`. -/
def read (H : Header) (resp : List Nat) (w : World) (self : Adafruit_LSM303_Mag_Unified) :
    Option (World × Adafruit_LSM303_Mag_Unified) :=
  let w := w.call (.beginTransmission (toByte H.LSM303_ADDRESS_MAG))
  let w := w.call (.write (toByte H.LSM303_REGISTER_MAG_OUT_X_H_M))
  let w := w.call .endTransmission
  let w := w.call (.requestFrom (toByte H.LSM303_ADDRESS_MAG) (toByte 6))
  match resp with
  | r0 :: r1 :: r2 :: r3 :: r4 :: r5 :: _ =>
    let xhi := toByte r0
    let xlo := toByte r1
    let zhi := toByte r2
    let zlo := toByte r3
    let yhi := toByte r4
    let ylo := toByte r5
    let self := { self with _magData := { self._magData with
      x := toInt16 ((xlo ||| ((toInt16 xhi).toNat <<< 8) : Nat) : Int) } }
    let self := { self with _magData := { self._magData with
      y := toInt16 ((ylo ||| ((toInt16 yhi).toNat <<< 8) : Nat) : Int) } }
    let self := { self with _magData := { self._magData with
      z := toInt16 ((zlo ||| ((toInt16 zhi).toNat <<< 8) : Nat) : Int) } }
    let self := { self with _magData := { self._magData with orientation := 0 } }
    some (w, self)
  | _ => none

/-- Method `setMagGain(gain)`; the `switch` has no `default`. -/
def setMagGain (H : Header) (gain : Nat) (w : World) (self : Adafruit_LSM303_Mag_Unified) :
    World × Adafruit_LSM303_Mag_Unified :=
  let w := write8 H.LSM303_ADDRESS_MAG H.LSM303_REGISTER_MAG_CRB_REG_M gain w
  let self := { self with _magGain := gain }
  let w :=
    if gain = H.LSM303_MAGGAIN_1_3 then
      { w with _lsm303Mag_Gauss_LSB_XY := 1100, _lsm303Mag_Gauss_LSB_Z := 980 }
    else if gain = H.LSM303_MAGGAIN_1_9 then
      { w with _lsm303Mag_Gauss_LSB_XY := 855, _lsm303Mag_Gauss_LSB_Z := 760 }
    else if gain = H.LSM303_MAGGAIN_2_5 then
      { w with _lsm303Mag_Gauss_LSB_XY := 670, _lsm303Mag_Gauss_LSB_Z := 600 }
    else if gain = H.LSM303_MAGGAIN_4_0 then
      { w with _lsm303Mag_Gauss_LSB_XY := 450, _lsm303Mag_Gauss_LSB_Z := 400 }
    else if gain = H.LSM303_MAGGAIN_4_7 then
      { w with _lsm303Mag_Gauss_LSB_XY := 400, _lsm303Mag_Gauss_LSB_Z := 355 }
    else if gain = H.LSM303_MAGGAIN_5_6 then
      { w with _lsm303Mag_Gauss_LSB_XY := 330, _lsm303Mag_Gauss_LSB_Z := 295 }
    else if gain = H.LSM303_MAGGAIN_8_1 then
      { w with _lsm303Mag_Gauss_LSB_XY := 230, _lsm303Mag_Gauss_LSB_Z := 205 }
    else w
  (w, self)

/-- Method `setMagDataRate(dataRate)`. -/
def setMagDataRate (H : Header) (dataRate : Nat) (w : World)
    (self : Adafruit_LSM303_Mag_Unified) : World × Adafruit_LSM303_Mag_Unified :=
  let w := write8 H.LSM303_ADDRESS_MAG H.LSM303_REGISTER_MAG_CRA_REG_M dataRate w
  (w, { self with _magDataRate := dataRate })

/-- Method `begin(gain, dataRate)`; the first component is the returned `bool`. -/
def begin (H : Header) (gain dataRate : Nat) (w : World) (self : Adafruit_LSM303_Mag_Unified) :
    Bool × World × Adafruit_LSM303_Mag_Unified :=
  let w := w.call .begin
  let w := write8 H.LSM303_ADDRESS_MAG H.LSM303_REGISTER_MAG_MR_REG_M 0x00 w
  let (w, self) := setMagGain H gain w self
  let (w, self) := setMagDataRate H dataRate w self
  (true, w, self)

/-- Method `getEvent(event)`; `now` is what `millis()` returns. The raw axes are integers of
16 bits, which a `float` holds exactly; each product or quotient is a binary32 operation. -/
def getEvent (H : Header) (resp : List Nat) (now : Nat) (w : World)
    (self : Adafruit_LSM303_Mag_Unified) :
    Option (sensors_event_t × World × Adafruit_LSM303_Mag_Unified) :=
  let event := sensors_event_t.zero
  match read H resp w self with
  | none => none
  | some (w, self) =>
    let event := { event with version := H.sizeof_sensors_event_t }
    let event := { event with sensor_id := self._sensorID }
    let event := { event with type := H.SENSOR_TYPE_MAGNETIC_FIELD }
    let event := { event with timestamp := toInt32 now }
    let event := { event with data := { event.data with
      x := fmul (fdiv self._magData.x w._lsm303Mag_Gauss_LSB_XY)
        SENSORS_GAUSS_TO_MICROTESLA } }
    let event := { event with data := { event.data with
      y := fmul (fdiv self._magData.y w._lsm303Mag_Gauss_LSB_XY)
        SENSORS_GAUSS_TO_MICROTESLA } }
    let event := { event with data := { event.data with
      z := fmul (fdiv self._magData.z w._lsm303Mag_Gauss_LSB_Z)
        SENSORS_GAUSS_TO_MICROTESLA } }
    some (event, w, self)

/-- Method `getSensor(sensor)`. -/
def getSensor (H : Header) (w : World) (self : Adafruit_LSM303_Mag_Unified) :
    sensor_t × World × Adafruit_LSM303_Mag_Unified :=
  let sensor := sensor_t.zero H.sizeof_name
  let sensor := { sensor with name := strncpy sensor.name "LSM303" (H.sizeof_name - 1) }
  let sensor := { sensor with name := sensor.name.set (H.sizeof_name - 1) NUL }
  let sensor := { sensor with version := 1 }
  let sensor := { sensor with sensor_id := self._sensorID }
  let sensor := { sensor with type := H.SENSOR_TYPE_MAGNETIC_FIELD }
  let sensor := { sensor with min_delay := 0 }
  let sensor := { sensor with max_value := 0 }
  let sensor := { sensor with min_value := 0 }
  let sensor := { sensor with resolution := 0 }
  (sensor, w, self)

end Adafruit_LSM303_Mag_Unified

/-! ## Reference definitions for the statements -/

/-- The signed 16-bit two's-complement value of a 16-bit word. -/
def twosComplement16 (word : Nat) : Int :=
  if word < 32768 then (word : Int) else (word : Int) - 65536

/-- The raw sample left in the accelerometer object by a `read()`. -/
def accelRaw (r : Option (World × Adafruit_LSM303_Accel_Unified)) : Option (Int × Int × Int) :=
  r.map (fun p => (p.2._accelData.x, p.2._accelData.y, p.2._accelData.z))

/-- The raw sample left in the magnetometer object by a `read()`. -/
def magRaw (r : Option (World × Adafruit_LSM303_Mag_Unified)) : Option (Int × Int × Int) :=
  r.map (fun p => (p.2._magData.x, p.2._magData.y, p.2._magData.z))

/-- The seven gain levels of the scale table: 1.3, 1.9, 2.5, 4.0, 4.7, 5.6 and 8.1. -/
inductive GainLevel
  | g1_3 | g1_9 | g2_5 | g4_0 | g4_7 | g5_6 | g8_1
  deriving DecidableEq, Repr

/-- The enumerator of `lsm303MagGain` that stands for a gain level. -/
def GainLevel.code (H : Header) : GainLevel → Nat
  | .g1_3 => H.LSM303_MAGGAIN_1_3
  | .g1_9 => H.LSM303_MAGGAIN_1_9
  | .g2_5 => H.LSM303_MAGGAIN_2_5
  | .g4_0 => H.LSM303_MAGGAIN_4_0
  | .g4_7 => H.LSM303_MAGGAIN_4_7
  | .g5_6 => H.LSM303_MAGGAIN_5_6
  | .g8_1 => H.LSM303_MAGGAIN_8_1

/-- The scale table as the specification lists it, as (XY, Z) pairs:
1.3→(1100,980), 1.9→(855,760), 2.5→(670,600), 4.0→(450,400), 4.7→(400,355), 5.6→(330,295),
8.1→(230,205). -/
def GainLevel.scale : GainLevel → ℚ × ℚ
  | .g1_3 => (1100, 980)
  | .g1_9 => (855, 760)
  | .g2_5 => (670, 600)
  | .g4_0 => (450, 400)
  | .g4_7 => (400, 355)
  | .g5_6 => (330, 295)
  | .g8_1 => (230, 205)

/-- The pair of scale variables (XY, Z) of a world. -/
def World.scale (w : World) : ℚ × ℚ := (w._lsm303Mag_Gauss_LSB_XY, w._lsm303Mag_Gauss_LSB_Z)

/-- The vector of an event result. -/
def vector3 {α : Type} (r : Option (sensors_event_t × World × α)) : Option (ℚ × ℚ × ℚ) :=
  r.map (fun p => (p.1.data.x, p.1.data.y, p.1.data.z))

/-- The world after the bus calls of the magnetometer `read()`. -/
def magReadWorld (H : Header) (w : World) : World :=
  (((w.call (.beginTransmission (toByte H.LSM303_ADDRESS_MAG))).call
    (.write (toByte H.LSM303_REGISTER_MAG_OUT_X_H_M))).call .endTransmission).call
    (.requestFrom (toByte H.LSM303_ADDRESS_MAG) (toByte 6))

/-- The world after the bus calls of the accelerometer `read()`. -/
def accelReadWorld (H : Header) (w : World) : World :=
  (((w.call (.beginTransmission (toByte H.LSM303_ADDRESS_ACCEL))).call
    (.write (toByte (H.LSM303_REGISTER_ACCEL_OUT_X_L_A ||| 0x80)))).call .endTransmission).call
    (.requestFrom (toByte H.LSM303_ADDRESS_ACCEL) (toByte 6))

/-! ## Programs: sequences of method calls on several objects -/

/-- The state of a sketch (a program using the driver): the world, and the objects of both
classes, numbered. -/
structure Sketch where
  world : World
  accel : Nat → Adafruit_LSM303_Accel_Unified
  mag : Nat → Adafruit_LSM303_Mag_Unified

/-- The state before the first method call: the file-level initialisers, and the objects as
their constructors left them. -/
def Sketch.boot (accel : Nat → Adafruit_LSM303_Accel_Unified)
    (mag : Nat → Adafruit_LSM303_Mag_Unified) : Sketch :=
  { world := World.init, accel := accel, mag := mag }

/-- A call of a public method on object number `i`. -/
inductive Call
  | accelBegin (i dataRate : Nat)
  | setAccelDataRate (i dataRate : Nat)
  | accelGetEvent (i : Nat) (resp : List Nat) (now : Nat)
  | accelGetSensor (i : Nat)
  | magBegin (i gain dataRate : Nat)
  | setMagGain (i gain : Nat)
  | setMagDataRate (i dataRate : Nat)
  | magGetEvent (i : Nat) (resp : List Nat) (now : Nat)
  | magGetSensor (i : Nat)
  deriving DecidableEq, Repr

/-- The state after one call; `none` when the call never returns. -/
def Sketch.step (H : Header) (s : Sketch) : Call → Option Sketch
  | .accelBegin i dataRate =>
    let r := Adafruit_LSM303_Accel_Unified.begin H dataRate s.world (s.accel i)
    some { s with world := r.2.1, accel := Function.update s.accel i r.2.2 }
  | .setAccelDataRate i dataRate =>
    let r := Adafruit_LSM303_Accel_Unified.setAccelDataRate H dataRate s.world (s.accel i)
    some { s with world := r.1, accel := Function.update s.accel i r.2 }
  | .accelGetEvent i resp now =>
    (Adafruit_LSM303_Accel_Unified.getEvent H resp now s.world (s.accel i)).map
      (fun r => { s with world := r.2.1, accel := Function.update s.accel i r.2.2 })
  | .accelGetSensor i =>
    let r := Adafruit_LSM303_Accel_Unified.getSensor H s.world (s.accel i)
    some { s with world := r.2.1, accel := Function.update s.accel i r.2.2 }
  | .magBegin i gain dataRate =>
    let r := Adafruit_LSM303_Mag_Unified.begin H gain dataRate s.world (s.mag i)
    some { s with world := r.2.1, mag := Function.update s.mag i r.2.2 }
  | .setMagGain i gain =>
    let r := Adafruit_LSM303_Mag_Unified.setMagGain H gain s.world (s.mag i)
    some { s with world := r.1, mag := Function.update s.mag i r.2 }
  | .setMagDataRate i dataRate =>
    let r := Adafruit_LSM303_Mag_Unified.setMagDataRate H dataRate s.world (s.mag i)
    some { s with world := r.1, mag := Function.update s.mag i r.2 }
  | .magGetEvent i resp now =>
    (Adafruit_LSM303_Mag_Unified.getEvent H resp now s.world (s.mag i)).map
      (fun r => { s with world := r.2.1, mag := Function.update s.mag i r.2.2 })
  | .magGetSensor i =>
    let r := Adafruit_LSM303_Mag_Unified.getSensor H s.world (s.mag i)
    some { s with world := r.2.1, mag := Function.update s.mag i r.2.2 }

/-- The state after a sequence of calls, first call first. -/
def Sketch.run (H : Header) : List Call → Sketch → Option Sketch
  | [], s => some s
  | c :: cs, s => (s.step H c).bind (Sketch.run H cs)

/-- The object and the gain of a call that configures a magnetometer gain. -/
def Call.gainConfig : Call → Option (Nat × Nat)
  | .magBegin i gain _ => some (i, gain)
  | .setMagGain i gain => some (i, gain)
  | _ => none

/-- The most recent gain configuration of a sequence of calls, on whichever object. -/
def lastGainConfig : List Call → Option (Nat × Nat)
  | [] => none
  | c :: cs =>
    match lastGainConfig cs with
    | some p => some p
    | none => c.gainConfig

/-- The gain most recently configured on object `i` by a sequence of calls. -/
def lastGainOn (i : Nat) : List Call → Option Nat
  | [] => none
  | c :: cs =>
    match lastGainOn i cs with
    | some g => some g
    | none =>
      match c.gainConfig with
      | some (j, g) => if j = i then some g else none
      | none => none

/-- A magnetometer object as the constructor leaves it in zeroed storage. -/
def mag0 (sensorID : Int) : Adafruit_LSM303_Mag_Unified :=
  Adafruit_LSM303_Mag_Unified.new sensorID ⟨0, 0, 0, ⟨0, 0, 0, 0⟩⟩

/-- An accelerometer object as the constructor leaves it in zeroed storage. -/
def accel0 (sensorID : Int) : Adafruit_LSM303_Accel_Unified :=
  Adafruit_LSM303_Accel_Unified.new sensorID ⟨0, 0, ⟨0, 0, 0⟩⟩

/-- A program start with objects numbered by their sensor ids. -/
def boot0 : Sketch := Sketch.boot (fun i => accel0 i) (fun i => mag0 i)

/-! ## Lemmas on the integer operations -/

theorem toByte_of_lt {n : Nat} (h : n < 256) : toByte n = n := by
  unfold toByte
  exact Nat.mod_eq_of_lt (by simpa using h)

theorem lo_or_hi_shift {lo hi : Nat} (hlo : lo < 256) : lo ||| (hi <<< 8) = lo + 256 * hi := by
  have h := @Nat.mul_add_lt_is_or 8 lo (by simpa using hlo) hi
  rw [Nat.shiftLeft_eq, Nat.lor_comm, Nat.mul_comm hi, ← h]
  norm_num
  omega

theorem toInt16_word {n : Nat} (h : n < 65536) : toInt16 (n : Int) = twosComplement16 n := by
  unfold toInt16 twosComplement16
  have h1 : ((n : Int)) % 2 ^ 16 = n := by
    apply Int.emod_eq_of_lt <;> omega
  simp only [h1]
  by_cases hn : n < 32768
  · have : (n : Int) < 2 ^ 15 := by norm_num; omega
    simp [hn, this]
  · have : ¬ (n : Int) < 2 ^ 15 := by norm_num; omega
    simp [hn, this]

theorem toInt16_byte {n : Nat} (h : n < 256) : (toInt16 (n : Int)).toNat = n := by
  rw [toInt16_word (by omega)]
  unfold twosComplement16
  have : n < 32768 := by omega
  simp [this]

theorem shiftRight4_eq_fdiv (v : Int) : v >>> (4 : Nat) = Int.fdiv v 16 := by
  rw [Int.shiftRight_eq_div_pow, Int.fdiv_eq_ediv _ (by norm_num)]
  norm_num

/-- The accelerometer expression `(int16_t)(lo | (hi << 8)) >> 4` on two bytes. -/
theorem accel_axis {lo hi : Nat} (hlo : lo < 256) (hhi : hi < 256) :
    toInt16 ((lo ||| (hi <<< 8) : Nat) : Int) >>> (4 : Nat)
      = Int.fdiv (twosComplement16 (lo + 256 * hi)) 16 := by
  rw [lo_or_hi_shift hlo, toInt16_word (by omega), shiftRight4_eq_fdiv]

/-- The magnetometer expression `(int16_t)(lo | ((int16_t)hi << 8))` on two bytes. -/
theorem mag_axis {lo hi : Nat} (hlo : lo < 256) (hhi : hi < 256) :
    toInt16 ((lo ||| ((toInt16 (hi : Int)).toNat <<< 8) : Nat) : Int)
      = twosComplement16 (lo + 256 * hi) := by
  rw [toInt16_byte hhi, lo_or_hi_shift hlo, toInt16_word (by omega)]

/-! ## Raw register decoding -/

/-- C1: for every six-byte response (xlo, xhi, ylo, yhi, zlo, zhi) the accelerometer `read()`
returns, and each raw axis it stores is the floor of the signed 16-bit two's-complement value
of the word lo + 256*hi divided by 16, low byte received first; the word 0x7FF0 decodes to
2047 and the word 0x8000 to -2048. -/
theorem accel_read_decodes (H : Header) (w : World) (self : Adafruit_LSM303_Accel_Unified)
    (xlo xhi ylo yhi zlo zhi : Nat)
    (hxlo : xlo < 256) (hxhi : xhi < 256) (hylo : ylo < 256) (hyhi : yhi < 256)
    (hzlo : zlo < 256) (hzhi : zhi < 256) :
    accelRaw (Adafruit_LSM303_Accel_Unified.read H [xlo, xhi, ylo, yhi, zlo, zhi] w self)
        = some (Int.fdiv (twosComplement16 (xlo + 256 * xhi)) 16,
                Int.fdiv (twosComplement16 (ylo + 256 * yhi)) 16,
                Int.fdiv (twosComplement16 (zlo + 256 * zhi)) 16)
      ∧ accelRaw (Adafruit_LSM303_Accel_Unified.read H [0xF0, 0x7F, 0x00, 0x80, zlo, zhi] w self)
          = some (2047, -2048, Int.fdiv (twosComplement16 (zlo + 256 * zhi)) 16) := by
  have key : ∀ a b c d : Nat, a < 256 → b < 256 → c < 256 → d < 256 →
      accelRaw (Adafruit_LSM303_Accel_Unified.read H [a, b, c, d, zlo, zhi] w self)
        = some (Int.fdiv (twosComplement16 (a + 256 * b)) 16,
                Int.fdiv (twosComplement16 (c + 256 * d)) 16,
                Int.fdiv (twosComplement16 (zlo + 256 * zhi)) 16) := by
    intro a b c d ha hb hc hd
    simp only [accelRaw, Adafruit_LSM303_Accel_Unified.read, Option.map_some', toByte_of_lt ha,
      toByte_of_lt hb, toByte_of_lt hc, toByte_of_lt hd, toByte_of_lt hzlo, toByte_of_lt hzhi,
      accel_axis ha hb, accel_axis hc hd, accel_axis hzlo hzhi]
  refine ⟨key xlo xhi ylo yhi hxlo hxhi hylo hyhi, ?_⟩
  rw [key 0xF0 0x7F 0x00 0x80 (by norm_num) (by norm_num) (by norm_num) (by norm_num)]
  simp [twosComplement16, Int.fdiv]
  decide

/-- Witness of C1: the response F0 7F 00 80 FF FF. -/
theorem accel_read_decodes_witness :
    accelRaw (Adafruit_LSM303_Accel_Unified.read dlhc [0xF0, 0x7F, 0x00, 0x80, 0xFF, 0xFF]
        World.init ⟨0, 0, ⟨0, 0, 0⟩⟩)
      = some (Int.fdiv (twosComplement16 (0xF0 + 256 * 0x7F)) 16,
              Int.fdiv (twosComplement16 (0x00 + 256 * 0x80)) 16,
              Int.fdiv (twosComplement16 (0xFF + 256 * 0xFF)) 16) :=
  (accel_read_decodes dlhc World.init ⟨0, 0, ⟨0, 0, 0⟩⟩ 0xF0 0x7F 0x00 0x80 0xFF 0xFF
    (by decide) (by decide) (by decide) (by decide) (by decide) (by decide)).1

/-- C2: for every six-byte response b0..b5 the magnetometer `read()` returns, the bytes are
X-high, X-low, Z-high, Z-low, Y-high, Y-low, and each raw axis it stores is the signed 16-bit
two's-complement value of the word low + 256*high, unshifted, within -32768..32767; the
response 00 64 00 32 00 0A gives x = 100, z = 50, y = 10. -/
theorem mag_read_decodes (H : Header) (w : World) (self : Adafruit_LSM303_Mag_Unified)
    (b0 b1 b2 b3 b4 b5 : Nat)
    (h0 : b0 < 256) (h1 : b1 < 256) (h2 : b2 < 256) (h3 : b3 < 256)
    (h4 : b4 < 256) (h5 : b5 < 256) :
    magRaw (Adafruit_LSM303_Mag_Unified.read H [b0, b1, b2, b3, b4, b5] w self)
        = some (twosComplement16 (b1 + 256 * b0),
                twosComplement16 (b5 + 256 * b4),
                twosComplement16 (b3 + 256 * b2))
      ∧ (-32768 ≤ twosComplement16 (b1 + 256 * b0) ∧ twosComplement16 (b1 + 256 * b0) ≤ 32767)
      ∧ (-32768 ≤ twosComplement16 (b5 + 256 * b4) ∧ twosComplement16 (b5 + 256 * b4) ≤ 32767)
      ∧ (-32768 ≤ twosComplement16 (b3 + 256 * b2) ∧ twosComplement16 (b3 + 256 * b2) ≤ 32767)
      ∧ magRaw (Adafruit_LSM303_Mag_Unified.read H [0x00, 0x64, 0x00, 0x32, 0x00, 0x0A] w self)
          = some (100, 10, 50)
      ∧ magRaw (Adafruit_LSM303_Mag_Unified.read H [0x80, 0x00, 0x7F, 0xFF, 0xFF, 0xFF] w self)
          = some (-32768, -1, 32767) := by
  have key : ∀ a b c d e f : Nat, a < 256 → b < 256 → c < 256 → d < 256 → e < 256 → f < 256 →
      magRaw (Adafruit_LSM303_Mag_Unified.read H [a, b, c, d, e, f] w self)
        = some (twosComplement16 (b + 256 * a), twosComplement16 (f + 256 * e),
                twosComplement16 (d + 256 * c)) := by
    intro a b c d e f ha hb hc hd he hf
    simp only [magRaw, Adafruit_LSM303_Mag_Unified.read, Option.map_some', toByte_of_lt ha,
      toByte_of_lt hb, toByte_of_lt hc, toByte_of_lt hd, toByte_of_lt he, toByte_of_lt hf,
      mag_axis hb ha, mag_axis hd hc, mag_axis hf he]
  have rng : ∀ n : Nat, n < 65536 → -32768 ≤ twosComplement16 n ∧ twosComplement16 n ≤ 32767 := by
    intro n hn
    unfold twosComplement16
    split <;> constructor <;> omega
  refine ⟨key b0 b1 b2 b3 b4 b5 h0 h1 h2 h3 h4 h5, rng _ (by omega), rng _ (by omega),
    rng _ (by omega), ?_, ?_⟩
  · rw [key _ _ _ _ _ _ (by norm_num) (by norm_num) (by norm_num) (by norm_num) (by norm_num)
      (by norm_num)]
    simp [twosComplement16]
  · rw [key _ _ _ _ _ _ (by norm_num) (by norm_num) (by norm_num) (by norm_num) (by norm_num)
      (by norm_num)]
    simp [twosComplement16]

/-- Witness of C2: the response 00 64 00 32 00 0A, sent X-high first. -/
theorem mag_read_decodes_witness :
    magRaw (Adafruit_LSM303_Mag_Unified.read dlhc [0x00, 0x64, 0x00, 0x32, 0x00, 0x0A]
        World.init ⟨0, 0, 0, ⟨0, 0, 0, 0⟩⟩)
      = some (twosComplement16 (0x64 + 256 * 0x00), twosComplement16 (0x0A + 256 * 0x00),
              twosComplement16 (0x32 + 256 * 0x00)) :=
  (mag_read_decodes dlhc World.init ⟨0, 0, 0, ⟨0, 0, 0, 0⟩⟩ 0x00 0x64 0x00 0x32 0x00 0x0A
    (by decide) (by decide) (by decide) (by decide) (by decide) (by decide)).1

/-! ## Gain selection -/

theorem mem_magGains_code (H : Header) (L : GainLevel) : L.code H ∈ H.magGains := by
  cases L <;> simp [GainLevel.code, Header.magGains]

theorem exists_level_of_mem (H : Header) {g : Nat} (h : g ∈ H.magGains) :
    ∃ L : GainLevel, L.code H = g := by
  simp only [Header.magGains, List.mem_cons, List.mem_singleton, List.not_mem_nil, or_false] at h
  rcases h with h | h | h | h | h | h | h
  · exact ⟨.g1_3, h.symm⟩
  · exact ⟨.g1_9, h.symm⟩
  · exact ⟨.g2_5, h.symm⟩
  · exact ⟨.g4_0, h.symm⟩
  · exact ⟨.g4_7, h.symm⟩
  · exact ⟨.g5_6, h.symm⟩
  · exact ⟨.g8_1, h.symm⟩

/-- After `setMagGain` with the enumerator of a level, the scale variables hold that level's
table entry. -/
theorem setMagGain_scale (H : Header) (hd : H.DistinctGains) (L : GainLevel) (w : World)
    (self : Adafruit_LSM303_Mag_Unified) :
    (Adafruit_LSM303_Mag_Unified.setMagGain H (L.code H) w self).1.scale = L.scale := by
  simp only [Header.DistinctGains, Header.magGains, List.nodup_cons, List.mem_cons,
    List.mem_singleton, List.not_mem_nil, not_or, List.nodup_nil] at hd
  obtain ⟨⟨h12, h13, h14, h15, h16, h17, -⟩, ⟨h23, h24, h25, h26, h27, -⟩,
    ⟨h34, h35, h36, h37, -⟩, ⟨h45, h46, h47, -⟩, ⟨h56, h57, -⟩, ⟨h67, -⟩, -⟩ := hd
  cases L <;>
    simp [Adafruit_LSM303_Mag_Unified.setMagGain, GainLevel.code, GainLevel.scale, World.scale,
      Ne.symm h12, Ne.symm h13, Ne.symm h14, Ne.symm h15, Ne.symm h16, Ne.symm h17,
      Ne.symm h23, Ne.symm h24, Ne.symm h25, Ne.symm h26, Ne.symm h27, Ne.symm h34,
      Ne.symm h35, Ne.symm h36, Ne.symm h37, Ne.symm h45, Ne.symm h46, Ne.symm h47,
      Ne.symm h56, Ne.symm h57, Ne.symm h67]

/-- After `setMagGain` with a value that is no enumerator, the scale variables are as before. -/
theorem setMagGain_scale_of_not_mem (H : Header) (gain : Nat) (hg : gain ∉ H.magGains)
    (w : World) (self : Adafruit_LSM303_Mag_Unified) :
    (Adafruit_LSM303_Mag_Unified.setMagGain H gain w self).1.scale = w.scale := by
  simp only [Header.magGains, List.mem_cons, List.mem_singleton, List.not_mem_nil, or_false,
    not_or] at hg
  obtain ⟨h1, h2, h3, h4, h5, h6, h7⟩ := hg
  simp [Adafruit_LSM303_Mag_Unified.setMagGain, World.scale, h1, h2, h3, h4, h5, h6, h7, write8,
    World.call]

theorem setMagGain_self (H : Header) (gain : Nat) (w : World)
    (self : Adafruit_LSM303_Mag_Unified) :
    (Adafruit_LSM303_Mag_Unified.setMagGain H gain w self).2 = { self with _magGain := gain } := by
  simp [Adafruit_LSM303_Mag_Unified.setMagGain]

/-- C3: for each of the seven gain levels and from every prior state, `setMagGain` leaves the
level's table entry in the (XY, Z) scale variables, the table being 1.3→(1100,980),
1.9→(855,760), 2.5→(670,600), 4.0→(450,400), 4.7→(400,355), 5.6→(330,295), 8.1→(230,205), and
a second `setMagGain` with the same level changes neither the stored gain nor the scale
variables. -/
theorem setMagGain_table_idempotent (H : Header) (hd : H.DistinctGains) (L : GainLevel)
    (w : World) (self : Adafruit_LSM303_Mag_Unified) :
    (Adafruit_LSM303_Mag_Unified.setMagGain H (L.code H) w self).1.scale = L.scale
      ∧ (Adafruit_LSM303_Mag_Unified.setMagGain H (L.code H) w self).2._magGain = L.code H
      ∧ (Adafruit_LSM303_Mag_Unified.setMagGain H (L.code H)
            (Adafruit_LSM303_Mag_Unified.setMagGain H (L.code H) w self).1
            (Adafruit_LSM303_Mag_Unified.setMagGain H (L.code H) w self).2).1.scale
          = (Adafruit_LSM303_Mag_Unified.setMagGain H (L.code H) w self).1.scale
      ∧ (Adafruit_LSM303_Mag_Unified.setMagGain H (L.code H)
            (Adafruit_LSM303_Mag_Unified.setMagGain H (L.code H) w self).1
            (Adafruit_LSM303_Mag_Unified.setMagGain H (L.code H) w self).2).2
          = (Adafruit_LSM303_Mag_Unified.setMagGain H (L.code H) w self).2
      ∧ (GainLevel.g1_3.scale = (1100, 980) ∧ GainLevel.g1_9.scale = (855, 760)
          ∧ GainLevel.g2_5.scale = (670, 600) ∧ GainLevel.g4_0.scale = (450, 400)
          ∧ GainLevel.g4_7.scale = (400, 355) ∧ GainLevel.g5_6.scale = (330, 295)
          ∧ GainLevel.g8_1.scale = (230, 205)) := by
  refine ⟨setMagGain_scale H hd L w self, ?_, ?_, ?_, ?_⟩
  · rw [setMagGain_self]
  · rw [setMagGain_scale H hd L, setMagGain_scale H hd L]
  · rw [setMagGain_self, setMagGain_self]
  · simp [GainLevel.scale]

/-- Witness of C3: gain 8.1 set on the start world with the data-sheet enumerators. -/
theorem setMagGain_table_idempotent_witness :
    dlhc.DistinctGains
      ∧ (Adafruit_LSM303_Mag_Unified.setMagGain dlhc (GainLevel.g8_1.code dlhc) World.init
          ⟨0, 0, 0, ⟨0, 0, 0, 0⟩⟩).1.scale = GainLevel.g8_1.scale :=
  ⟨by decide, (setMagGain_table_idempotent dlhc (by decide) GainLevel.g8_1 World.init
    ⟨0, 0, 0, ⟨0, 0, 0, 0⟩⟩).1⟩

/-- C8: `setMagGain` with a value outside the seven enumerators leaves the XY and Z scale
variables at their previous values, from every prior state. -/
theorem setMagGain_unknown_keeps_scale (H : Header) (gain : Nat) (hg : gain ∉ H.magGains)
    (w : World) (self : Adafruit_LSM303_Mag_Unified) :
    (Adafruit_LSM303_Mag_Unified.setMagGain H gain w self).1._lsm303Mag_Gauss_LSB_XY
        = w._lsm303Mag_Gauss_LSB_XY
      ∧ (Adafruit_LSM303_Mag_Unified.setMagGain H gain w self).1._lsm303Mag_Gauss_LSB_Z
        = w._lsm303Mag_Gauss_LSB_Z := by
  have h := setMagGain_scale_of_not_mem H gain hg w self
  simp only [World.scale, Prod.mk.injEq] at h
  exact h

/-- Witness of C8: the value 0x10 after gain 4.0 was set. -/
theorem setMagGain_unknown_keeps_scale_witness :
    0x10 ∉ dlhc.magGains
      ∧ (Adafruit_LSM303_Mag_Unified.setMagGain dlhc 0x10
          (Adafruit_LSM303_Mag_Unified.setMagGain dlhc 0x80 World.init
            ⟨0, 0, 0, ⟨0, 0, 0, 0⟩⟩).1 ⟨0, 0x80, 0, ⟨0, 0, 0, 0⟩⟩).1._lsm303Mag_Gauss_LSB_XY
        = 450 :=
  ⟨by decide, by
    rw [(setMagGain_unknown_keeps_scale dlhc 0x10 (by decide) _ _).1]
    simp [Adafruit_LSM303_Mag_Unified.setMagGain, dlhc]⟩

/-! ## binary32 values -/

theorem toFloat_zero : toFloat 0 = 0 := by simp [toFloat]

/-- The value of `toFloat` at a positive fraction in lowest terms, from the significand and
exponent that `roundSig` computes. -/
theorem toFloat_eval (x y : ℚ) (a d m : Nat) (k : Int) (hx : x = (a : ℚ) / d) (ha : 0 < a)
    (hd : 0 < d) (hc : Nat.Coprime a d) (hr : roundSig a d = (m, k))
    (hy : y = (m : ℚ) * 2 ^ k) : toFloat x = y := by
  have hpos : (0 : ℚ) < (a : ℚ) / d := by positivity
  have hnum : ((a : ℚ) / d).num = a := by
    have h := @Rat.num_div_eq_of_coprime (a : ℤ) (d : ℤ) (by exact_mod_cast hd)
      (by simpa using hc)
    simpa using h
  have hden : ((a : ℚ) / d).den = d := by
    have h := @Rat.den_div_eq_of_coprime (a : ℤ) (d : ℤ) (by exact_mod_cast hd)
      (by simpa using hc)
    simpa using h
  subst hx hy
  unfold toFloat
  rw [if_neg hpos.ne', if_neg (not_lt.mpr hpos.le), hnum, hden]
  simp [hr]

/-- The constant 0.001F. -/
theorem MG_LSB_value : _lsm303Accel_MG_LSB = 8589935 / 8589934592 :=
  toFloat_eval _ _ 1 1000 8589935 (-33) (by norm_num) (by decide) (by decide) (by norm_num)
    (by decide) (by norm_num)

/-- The constant 9.80665F. -/
theorem GRAVITY_value : SENSORS_GRAVITY_STANDARD = 5141509 / 524288 :=
  toFloat_eval _ _ 196133 20000 10283018 (-20) (by norm_num) (by decide) (by decide)
    (by norm_num) (by decide) (by norm_num)

/-- Raw 16 on the accelerometer: 16 * 0.001F * 9.80665F in binary32. -/
theorem accel_axis_eval_16 (r : ℤ) (hr : r = 16) :
    toFloat (toFloat ((r : ℚ) * _lsm303Accel_MG_LSB) * SENSORS_GRAVITY_STANDARD)
      = 10529811 / 67108864 := by
  subst hr
  rw [MG_LSB_value, GRAVITY_value,
    toFloat_eval (((16 : ℤ) : ℚ) * (8589935 / 8589934592)) (8589935 / 536870912)
      8589935 536870912 8589935 (-29) (by norm_num) (by decide) (by decide) (by norm_num)
      (by decide) (by norm_num)]
  exact toFloat_eval _ _ 44165228111915 281474976710656 10529811 (-26) (by norm_num)
    (by decide) (by decide) (by norm_num) (by decide) (by norm_num)

/-- Raw 100 at scale 1100 on the magnetometer, in binary32. -/
theorem mag_axis_eval_100_1100 (r : ℤ) (s : ℚ) (hr : r = 100) (hs : s = 1100) :
    toFloat (toFloat ((r : ℚ) / s) * 100) = 9532509 / 1048576 := by
  subst hr hs
  rw [toFloat_eval (((100 : ℤ) : ℚ) / 1100) (3050403 / 33554432) 1 11 12201612 (-27)
    (by norm_num) (by decide) (by decide) (by norm_num) (by decide) (by norm_num)]
  exact toFloat_eval _ _ 76260075 8388608 9532509 (-20) (by norm_num) (by decide) (by decide)
    (by norm_num) (by decide) (by norm_num)

/-- Raw 10 at scale 1100 on the magnetometer, in binary32. -/
theorem mag_axis_eval_10_1100 (r : ℤ) (s : ℚ) (hr : r = 10) (hs : s = 1100) :
    toFloat (toFloat ((r : ℚ) / s) * 100) = 7626007 / 8388608 := by
  subst hr hs
  rw [toFloat_eval (((10 : ℤ) : ℚ) / 1100) (9761289 / 1073741824) 1 110 9761289 (-30)
    (by norm_num) (by decide) (by decide) (by norm_num) (by decide) (by norm_num)]
  exact toFloat_eval _ _ 244032225 268435456 15252014 (-24) (by norm_num) (by decide)
    (by decide) (by norm_num) (by decide) (by norm_num)

/-- Raw 50 at scale 980 on the magnetometer, in binary32. -/
theorem mag_axis_eval_50_980 (r : ℤ) (s : ℚ) (hr : r = 50) (hs : s = 980) :
    toFloat (toFloat ((r : ℚ) / s) * 100) = 10699755 / 2097152 := by
  subst hr hs
  rw [toFloat_eval (((50 : ℤ) : ℚ) / 980) (13695687 / 268435456) 5 98 13695687 (-28)
    (by norm_num) (by decide) (by decide) (by norm_num) (by decide) (by norm_num)]
  exact toFloat_eval _ _ 342392175 67108864 10699755 (-21) (by norm_num) (by decide)
    (by decide) (by norm_num) (by decide) (by norm_num)

/-- Raw 100 at scale 230 on the magnetometer, in binary32. -/
theorem mag_axis_eval_100_230 (r : ℤ) (s : ℚ) (hr : r = 100) (hs : s = 230) :
    toFloat (toFloat ((r : ℚ) / s) * 100) = 11397565 / 262144 := by
  subst hr hs
  rw [toFloat_eval (((100 : ℤ) : ℚ) / 230) (14588883 / 33554432) 10 23 14588883 (-25)
    (by norm_num) (by decide) (by decide) (by norm_num) (by decide) (by norm_num)]
  exact toFloat_eval _ _ 364722075 8388608 11397565 (-18) (by norm_num) (by decide)
    (by decide) (by norm_num) (by decide) (by norm_num)

/-- Raw 10 at scale 230 on the magnetometer, in binary32. -/
theorem mag_axis_eval_10_230 (r : ℤ) (s : ℚ) (hr : r = 10) (hs : s = 230) :
    toFloat (toFloat ((r : ℚ) / s) * 100) = 2279513 / 524288 := by
  subst hr hs
  rw [toFloat_eval (((10 : ℤ) : ℚ) / 230) (11671107 / 268435456) 1 23 11671107 (-28)
    (by norm_num) (by decide) (by decide) (by norm_num) (by decide) (by norm_num)]
  exact toFloat_eval _ _ 291777675 67108864 9118052 (-21) (by norm_num) (by decide)
    (by decide) (by norm_num) (by decide) (by norm_num)

/-- Raw 50 at scale 205 on the magnetometer, in binary32. -/
theorem mag_axis_eval_50_205 (r : ℤ) (s : ℚ) (hr : r = 50) (hs : s = 205) :
    toFloat (toFloat ((r : ℚ) / s) * 100) = 1598439 / 65536 := by
  subst hr hs
  rw [toFloat_eval (((50 : ℤ) : ℚ) / 205) (1023001 / 4194304) 10 41 16368016 (-26)
    (by norm_num) (by decide) (by decide) (by norm_num) (by decide) (by norm_num)]
  exact toFloat_eval _ _ 25575025 1048576 12787512 (-19) (by norm_num) (by decide)
    (by decide) (by norm_num) (by decide) (by norm_num)

/-! ## Events -/

theorem magReadWorld_scale (H : Header) (w : World) : (magReadWorld H w).scale = w.scale := by
  simp [magReadWorld, World.scale, World.call]

/-- The magnetometer `read()` on six bytes: it returns, and only `_magData` of the object
changes. -/
theorem mag_read_some (H : Header) (w : World) (self : Adafruit_LSM303_Mag_Unified)
    {b0 b1 b2 b3 b4 b5 : Nat} (h0 : b0 < 256) (h1 : b1 < 256) (h2 : b2 < 256) (h3 : b3 < 256)
    (h4 : b4 < 256) (h5 : b5 < 256) :
    Adafruit_LSM303_Mag_Unified.read H [b0, b1, b2, b3, b4, b5] w self
      = some (magReadWorld H w, { self with _magData :=
          { x := twosComplement16 (b1 + 256 * b0), y := twosComplement16 (b5 + 256 * b4),
            z := twosComplement16 (b3 + 256 * b2), orientation := 0 } }) := by
  simp only [Adafruit_LSM303_Mag_Unified.read, magReadWorld, toByte_of_lt h0, toByte_of_lt h1,
    toByte_of_lt h2, toByte_of_lt h3, toByte_of_lt h4, toByte_of_lt h5, mag_axis h1 h0,
    mag_axis h3 h2, mag_axis h5 h4]

/-- The magnetometer `getEvent` on six bytes: each axis is the raw axis divided by the scale
variable and multiplied by 100, both in binary32. -/
theorem mag_getEvent_some (H : Header) (now : Nat) (w : World)
    (self : Adafruit_LSM303_Mag_Unified)
    {b0 b1 b2 b3 b4 b5 : Nat} (h0 : b0 < 256) (h1 : b1 < 256) (h2 : b2 < 256) (h3 : b3 < 256)
    (h4 : b4 < 256) (h5 : b5 < 256) :
    ∃ (e : sensors_event_t) (s1 : Adafruit_LSM303_Mag_Unified),
      Adafruit_LSM303_Mag_Unified.getEvent H [b0, b1, b2, b3, b4, b5] now w self
          = some (e, magReadWorld H w, s1)
        ∧ e.data =
            { x := toFloat (toFloat
                (twosComplement16 (b1 + 256 * b0) / w._lsm303Mag_Gauss_LSB_XY) * 100)
              y := toFloat (toFloat
                (twosComplement16 (b5 + 256 * b4) / w._lsm303Mag_Gauss_LSB_XY) * 100)
              z := toFloat (toFloat
                (twosComplement16 (b3 + 256 * b2) / w._lsm303Mag_Gauss_LSB_Z) * 100) } := by
  have hr := mag_read_some H w self h0 h1 h2 h3 h4 h5
  have hs := magReadWorld_scale H w
  simp only [World.scale, Prod.mk.injEq] at hs
  simp only [Adafruit_LSM303_Mag_Unified.getEvent, hr]
  exact ⟨_, _, rfl, by simp [SENSORS_GAUSS_TO_MICROTESLA, fmul, fdiv, hs.1, hs.2]⟩

theorem mag_getEvent_vector3 (H : Header) (now : Nat) (w : World)
    (self : Adafruit_LSM303_Mag_Unified)
    {b0 b1 b2 b3 b4 b5 : Nat} (h0 : b0 < 256) (h1 : b1 < 256) (h2 : b2 < 256) (h3 : b3 < 256)
    (h4 : b4 < 256) (h5 : b5 < 256) :
    vector3 (Adafruit_LSM303_Mag_Unified.getEvent H [b0, b1, b2, b3, b4, b5] now w self)
      = some (toFloat (toFloat (twosComplement16 (b1 + 256 * b0) / w.scale.1) * 100),
              toFloat (toFloat (twosComplement16 (b5 + 256 * b4) / w.scale.1) * 100),
              toFloat (toFloat (twosComplement16 (b3 + 256 * b2) / w.scale.2) * 100)) := by
  obtain ⟨e, s1, he, hd⟩ := mag_getEvent_some H now w self h0 h1 h2 h3 h4 h5
  simp [vector3, he, hd, World.scale]

/-- Counterexample to C4 as stated: gain 8.1 is in force, `setMagGain` sets gain 1.3 and the
response 00 64 00 32 00 0A is read; the event holds the binary32 results
(9532509/1048576, 7626007/8388608, 10699755/2097152), which are not the exact quotients
(100/1100*100, 10/1100*100, 50/980*100). -/
theorem mag_getEvent_exact_counterexample :
    Option.map (fun r => (r.1.magnetic.x, r.1.magnetic.y, r.1.magnetic.z))
        (Adafruit_LSM303_Mag_Unified.getEvent dlhc [0x00, 0x64, 0x00, 0x32, 0x00, 0x0A] 0
          (Adafruit_LSM303_Mag_Unified.setMagGain dlhc 0x20
            (Adafruit_LSM303_Mag_Unified.setMagGain dlhc 0xE0 World.init (mag0 1)).1
            (Adafruit_LSM303_Mag_Unified.setMagGain dlhc 0xE0 World.init (mag0 1)).2).1
          (Adafruit_LSM303_Mag_Unified.setMagGain dlhc 0x20
            (Adafruit_LSM303_Mag_Unified.setMagGain dlhc 0xE0 World.init (mag0 1)).1
            (Adafruit_LSM303_Mag_Unified.setMagGain dlhc 0xE0 World.init (mag0 1)).2).2)
        = some ((9532509 : ℚ) / 1048576, (7626007 : ℚ) / 8388608, (10699755 : ℚ) / 2097152)
      ∧ (9532509 : ℚ) / 1048576 ≠ 100 / 1100 * 100
      ∧ (7626007 : ℚ) / 8388608 ≠ 10 / 1100 * 100
      ∧ (10699755 : ℚ) / 2097152 ≠ 50 / 980 * 100 := by
  refine ⟨?_, by norm_num, by norm_num, by norm_num⟩
  have e1 := setMagGain_scale dlhc (by decide) .g1_3
    (Adafruit_LSM303_Mag_Unified.setMagGain dlhc 0xE0 World.init (mag0 1)).1
    (Adafruit_LSM303_Mag_Unified.setMagGain dlhc 0xE0 World.init (mag0 1)).2
  have h := @mag_getEvent_vector3 dlhc 0
    (Adafruit_LSM303_Mag_Unified.setMagGain dlhc 0x20
      (Adafruit_LSM303_Mag_Unified.setMagGain dlhc 0xE0 World.init (mag0 1)).1
      (Adafruit_LSM303_Mag_Unified.setMagGain dlhc 0xE0 World.init (mag0 1)).2).1
    (Adafruit_LSM303_Mag_Unified.setMagGain dlhc 0x20
      (Adafruit_LSM303_Mag_Unified.setMagGain dlhc 0xE0 World.init (mag0 1)).1
      (Adafruit_LSM303_Mag_Unified.setMagGain dlhc 0xE0 World.init (mag0 1)).2).2
    0x00 0x64 0x00 0x32 0x00 0x0A (by norm_num) (by norm_num) (by norm_num) (by norm_num)
    (by norm_num) (by norm_num)
  refine h.trans ?_
  rw [show (Adafruit_LSM303_Mag_Unified.setMagGain dlhc 0x20
      (Adafruit_LSM303_Mag_Unified.setMagGain dlhc 0xE0 World.init (mag0 1)).1
      (Adafruit_LSM303_Mag_Unified.setMagGain dlhc 0xE0 World.init (mag0 1)).2).1.scale
      = ((1100 : ℚ), (980 : ℚ)) from e1]
  rw [mag_axis_eval_100_1100 _ _ (by decide) rfl, mag_axis_eval_10_1100 _ _ (by decide) rfl,
    mag_axis_eval_50_980 _ _ (by decide) rfl]

/-- C4, amended: for every gain level G and every six-byte response, the event produced after
`setMagGain(G)` has magnetic.x = fl(fl(rawX / XY(G)) * 100), magnetic.y = fl(fl(rawY / XY(G))
* 100) and magnetic.z = fl(fl(rawZ / Z(G)) * 100), where fl rounds the exact result of each
`float` operation to the nearest binary32 value and XY(G), Z(G) are the table entry of G;
after a change of gain from G1 to G2 the event for the same response is scaled by the
constants of G2; and the all-zero response gives exactly 0 on every axis. -/
theorem mag_getEvent_scaled (H : Header) (hd : H.DistinctGains) (G G1 G2 : GainLevel)
    (w : World) (self : Adafruit_LSM303_Mag_Unified) (now now2 : Nat)
    (b0 b1 b2 b3 b4 b5 : Nat) (h0 : b0 < 256) (h1 : b1 < 256) (h2 : b2 < 256) (h3 : b3 < 256)
    (h4 : b4 < 256) (h5 : b5 < 256) :
    (Option.map (fun r => (r.1.magnetic.x, r.1.magnetic.y, r.1.magnetic.z))
        (Adafruit_LSM303_Mag_Unified.getEvent H [b0, b1, b2, b3, b4, b5] now
          (Adafruit_LSM303_Mag_Unified.setMagGain H (G.code H) w self).1
          (Adafruit_LSM303_Mag_Unified.setMagGain H (G.code H) w self).2)
        = some (toFloat (toFloat (twosComplement16 (b1 + 256 * b0) / G.scale.1) * 100),
                toFloat (toFloat (twosComplement16 (b5 + 256 * b4) / G.scale.1) * 100),
                toFloat (toFloat (twosComplement16 (b3 + 256 * b2) / G.scale.2) * 100)))
      ∧ (Option.map (fun r => (r.1.magnetic.x, r.1.magnetic.y, r.1.magnetic.z))
          ((Adafruit_LSM303_Mag_Unified.getEvent H [b0, b1, b2, b3, b4, b5] now
              (Adafruit_LSM303_Mag_Unified.setMagGain H (G1.code H) w self).1
              (Adafruit_LSM303_Mag_Unified.setMagGain H (G1.code H) w self).2).bind
            (fun r => Adafruit_LSM303_Mag_Unified.getEvent H [b0, b1, b2, b3, b4, b5] now2
              (Adafruit_LSM303_Mag_Unified.setMagGain H (G2.code H) r.2.1 r.2.2).1
              (Adafruit_LSM303_Mag_Unified.setMagGain H (G2.code H) r.2.1 r.2.2).2))
        = some (toFloat (toFloat (twosComplement16 (b1 + 256 * b0) / G2.scale.1) * 100),
                toFloat (toFloat (twosComplement16 (b5 + 256 * b4) / G2.scale.1) * 100),
                toFloat (toFloat (twosComplement16 (b3 + 256 * b2) / G2.scale.2) * 100)))
      ∧ (Option.map (fun r => (r.1.magnetic.x, r.1.magnetic.y, r.1.magnetic.z))
          (Adafruit_LSM303_Mag_Unified.getEvent H [0, 0, 0, 0, 0, 0] now
            (Adafruit_LSM303_Mag_Unified.setMagGain H (G.code H) w self).1
            (Adafruit_LSM303_Mag_Unified.setMagGain H (G.code H) w self).2)
        = some (0, 0, 0)) := by
  have key : ∀ (L : GainLevel) (w : World) (self : Adafruit_LSM303_Mag_Unified) (t : Nat)
      (a b c d e f : Nat), a < 256 → b < 256 → c < 256 → d < 256 → e < 256 → f < 256 →
      Option.map (fun r => (r.1.magnetic.x, r.1.magnetic.y, r.1.magnetic.z))
        (Adafruit_LSM303_Mag_Unified.getEvent H [a, b, c, d, e, f] t
          (Adafruit_LSM303_Mag_Unified.setMagGain H (L.code H) w self).1
          (Adafruit_LSM303_Mag_Unified.setMagGain H (L.code H) w self).2)
        = some (toFloat (toFloat (twosComplement16 (b + 256 * a) / L.scale.1) * 100),
                toFloat (toFloat (twosComplement16 (f + 256 * e) / L.scale.1) * 100),
                toFloat (toFloat (twosComplement16 (d + 256 * c) / L.scale.2) * 100)) := by
    intro L w self t a b c d e f ha hb hc hd' he hf
    have h := mag_getEvent_vector3 H t
      (Adafruit_LSM303_Mag_Unified.setMagGain H (L.code H) w self).1
      (Adafruit_LSM303_Mag_Unified.setMagGain H (L.code H) w self).2 ha hb hc hd' he hf
    rw [setMagGain_scale H hd L] at h
    exact h
  refine ⟨key G w self now _ _ _ _ _ _ h0 h1 h2 h3 h4 h5, ?_, ?_⟩
  · obtain ⟨e, s1, he, -⟩ := mag_getEvent_some H now
      (Adafruit_LSM303_Mag_Unified.setMagGain H (G1.code H) w self).1
      (Adafruit_LSM303_Mag_Unified.setMagGain H (G1.code H) w self).2 h0 h1 h2 h3 h4 h5
    rw [he, Option.some_bind]
    exact key G2 _ s1 now2 _ _ _ _ _ _ h0 h1 h2 h3 h4 h5
  · rw [key G w self now 0 0 0 0 0 0 (by norm_num) (by norm_num) (by norm_num) (by norm_num)
      (by norm_num) (by norm_num)]
    simp [twosComplement16, toFloat_zero]

/-- Witness of amended C4: from the start world, gain 8.1 and the response
00 64 00 32 00 0A, the divisors being 230 and 205. -/
theorem mag_getEvent_scaled_witness :
    dlhc.DistinctGains
      ∧ Option.map (fun r => (r.1.magnetic.x, r.1.magnetic.y, r.1.magnetic.z))
        (Adafruit_LSM303_Mag_Unified.getEvent dlhc [0x00, 0x64, 0x00, 0x32, 0x00, 0x0A] 0
          (Adafruit_LSM303_Mag_Unified.setMagGain dlhc 0xE0 World.init (mag0 1)).1
          (Adafruit_LSM303_Mag_Unified.setMagGain dlhc 0xE0 World.init (mag0 1)).2)
        = some (toFloat (toFloat (((100 : ℤ) : ℚ) / 230) * 100),
                toFloat (toFloat (((10 : ℤ) : ℚ) / 230) * 100),
                toFloat (toFloat (((50 : ℤ) : ℚ) / 205) * 100)) :=
  ⟨by decide, (mag_getEvent_scaled dlhc (by decide) GainLevel.g8_1 GainLevel.g8_1 GainLevel.g1_3
    World.init (mag0 1) 0 1 0x00 0x64 0x00 0x32 0x00 0x0A
    (by decide) (by decide) (by decide) (by decide) (by decide) (by decide)).1⟩

/-- The accelerometer `read()` on six bytes: it returns, and only `_accelData` of the object
changes. -/
theorem accel_read_some (H : Header) (w : World) (self : Adafruit_LSM303_Accel_Unified)
    {b0 b1 b2 b3 b4 b5 : Nat} (h0 : b0 < 256) (h1 : b1 < 256) (h2 : b2 < 256) (h3 : b3 < 256)
    (h4 : b4 < 256) (h5 : b5 < 256) :
    Adafruit_LSM303_Accel_Unified.read H [b0, b1, b2, b3, b4, b5] w self
      = some (accelReadWorld H w, { self with _accelData :=
          { x := Int.fdiv (twosComplement16 (b0 + 256 * b1)) 16
            y := Int.fdiv (twosComplement16 (b2 + 256 * b3)) 16
            z := Int.fdiv (twosComplement16 (b4 + 256 * b5)) 16 } }) := by
  simp only [Adafruit_LSM303_Accel_Unified.read, accelReadWorld, toByte_of_lt h0,
    toByte_of_lt h1, toByte_of_lt h2, toByte_of_lt h3, toByte_of_lt h4, toByte_of_lt h5,
    accel_axis h0 h1, accel_axis h2 h3, accel_axis h4 h5]

theorem accel_getEvent_vector3 (H : Header) (now : Nat) (w : World)
    (self : Adafruit_LSM303_Accel_Unified)
    {b0 b1 b2 b3 b4 b5 : Nat} (h0 : b0 < 256) (h1 : b1 < 256) (h2 : b2 < 256) (h3 : b3 < 256)
    (h4 : b4 < 256) (h5 : b5 < 256) :
    vector3 (Adafruit_LSM303_Accel_Unified.getEvent H [b0, b1, b2, b3, b4, b5] now w self)
      = some (toFloat (toFloat ((Int.fdiv (twosComplement16 (b0 + 256 * b1)) 16 : ℚ)
                  * _lsm303Accel_MG_LSB) * SENSORS_GRAVITY_STANDARD),
              toFloat (toFloat ((Int.fdiv (twosComplement16 (b2 + 256 * b3)) 16 : ℚ)
                  * _lsm303Accel_MG_LSB) * SENSORS_GRAVITY_STANDARD),
              toFloat (toFloat ((Int.fdiv (twosComplement16 (b4 + 256 * b5)) 16 : ℚ)
                  * _lsm303Accel_MG_LSB) * SENSORS_GRAVITY_STANDARD)) := by
  simp only [vector3, Adafruit_LSM303_Accel_Unified.getEvent,
    accel_read_some H w self h0 h1 h2 h3 h4 h5, Option.map_some', fmul]

/-- Counterexample to C5 as stated: for the response 00 01 00 00 00 00 the raw x is 16 and the
event holds the binary32 result 10529811/67108864 on x, which is not the exact product
16 * 0.001 * 9.80665 = 0.1569064. -/
theorem accel_getEvent_exact_counterexample :
    Option.map (fun r => (r.1.acceleration.x, r.1.acceleration.y, r.1.acceleration.z))
        (Adafruit_LSM303_Accel_Unified.getEvent dlhc [0x00, 0x01, 0x00, 0x00, 0x00, 0x00] 0
          World.init (accel0 1))
        = some ((10529811 : ℚ) / 67108864, 0, 0)
      ∧ (10529811 : ℚ) / 67108864 ≠ 16 * 0.001 * 9.80665
      ∧ (16 : ℚ) * 0.001 * 9.80665 = 0.1569064 := by
  refine ⟨?_, by norm_num, by norm_num⟩
  have h := @accel_getEvent_vector3 dlhc 0 World.init (accel0 1) 0x00 0x01 0x00 0x00 0x00 0x00
    (by norm_num) (by norm_num) (by norm_num) (by norm_num) (by norm_num) (by norm_num)
  refine h.trans ?_
  rw [accel_axis_eval_16 _ (by decide)]
  have hz : Int.fdiv (twosComplement16 (0x00 + 256 * 0x00)) 16 = 0 := by decide
  rw [hz]
  simp [toFloat_zero]

/-- C5, amended: for every six-byte response, each axis of the acceleration of the
accelerometer event is the decoded raw axis (after the 4-bit shift) times the `float` constant
0.001F = 8589935/2^33, then times the `float` constant 9.80665F = 5141509/2^19, each product
rounded to the nearest binary32 value, whatever data rate the object holds or was just given;
the response 00 01 00 00 00 00 gives acceleration.x = 10529811/67108864, which is 0.1569064
to seven places, and y = z = 0. -/
theorem accel_getEvent_scaled (H : Header) (w : World) (self : Adafruit_LSM303_Accel_Unified)
    (dataRate now : Nat) (xlo xhi ylo yhi zlo zhi : Nat)
    (hxlo : xlo < 256) (hxhi : xhi < 256) (hylo : ylo < 256) (hyhi : yhi < 256)
    (hzlo : zlo < 256) (hzhi : zhi < 256) :
    (Option.map (fun r => (r.1.acceleration.x, r.1.acceleration.y, r.1.acceleration.z))
        (Adafruit_LSM303_Accel_Unified.getEvent H [xlo, xhi, ylo, yhi, zlo, zhi] now w self)
        = some (toFloat (toFloat ((Int.fdiv (twosComplement16 (xlo + 256 * xhi)) 16 : ℚ)
                    * (8589935 / 2 ^ 33)) * (5141509 / 2 ^ 19)),
                toFloat (toFloat ((Int.fdiv (twosComplement16 (ylo + 256 * yhi)) 16 : ℚ)
                    * (8589935 / 2 ^ 33)) * (5141509 / 2 ^ 19)),
                toFloat (toFloat ((Int.fdiv (twosComplement16 (zlo + 256 * zhi)) 16 : ℚ)
                    * (8589935 / 2 ^ 33)) * (5141509 / 2 ^ 19))))
      ∧ (toFloat 0.001 = 8589935 / 2 ^ 33 ∧ toFloat 9.80665 = 5141509 / 2 ^ 19)
      ∧ (Option.map (fun r => (r.1.acceleration.x, r.1.acceleration.y, r.1.acceleration.z))
          (Adafruit_LSM303_Accel_Unified.getEvent H [xlo, xhi, ylo, yhi, zlo, zhi] now
            (Adafruit_LSM303_Accel_Unified.setAccelDataRate H dataRate w self).1
            (Adafruit_LSM303_Accel_Unified.setAccelDataRate H dataRate w self).2)
        = Option.map (fun r => (r.1.acceleration.x, r.1.acceleration.y, r.1.acceleration.z))
          (Adafruit_LSM303_Accel_Unified.getEvent H [xlo, xhi, ylo, yhi, zlo, zhi] now w self))
      ∧ (Option.map (fun r => (r.1.acceleration.x, r.1.acceleration.y, r.1.acceleration.z))
          (Adafruit_LSM303_Accel_Unified.getEvent H [0x00, 0x01, 0x00, 0x00, 0x00, 0x00] now w self)
        = some ((10529811 : ℚ) / 67108864, 0, 0))
      ∧ |(10529811 : ℚ) / 67108864 - 0.1569064| < 1 / 10 ^ 7 := by
  have hMG : _lsm303Accel_MG_LSB = 8589935 / 2 ^ 33 := by rw [MG_LSB_value]; norm_num
  have hG : SENSORS_GRAVITY_STANDARD = 5141509 / 2 ^ 19 := by rw [GRAVITY_value]; norm_num
  have key := fun (w : World) (self : Adafruit_LSM303_Accel_Unified) =>
    accel_getEvent_vector3 H now w self hxlo hxhi hylo hyhi hzlo hzhi
  simp only [vector3] at key
  refine ⟨?_, ⟨?_, ?_⟩, ?_, ?_, ?_⟩
  · rw [← hMG, ← hG]
    exact key w self
  · rw [← hMG]
    simp only [_lsm303Accel_MG_LSB]
    norm_num
  · rw [← hG]
    simp only [SENSORS_GRAVITY_STANDARD]
    norm_num
  · exact (key _ _).trans (key w self).symm
  · have h := @accel_getEvent_vector3 H now w self 0x00 0x01 0x00 0x00 0x00 0x00 (by norm_num)
      (by norm_num) (by norm_num) (by norm_num) (by norm_num) (by norm_num)
    refine h.trans ?_
    rw [accel_axis_eval_16 _ (by decide)]
    have hz : Int.fdiv (twosComplement16 (0x00 + 256 * 0x00)) 16 = 0 := by decide
    rw [hz]
    simp [toFloat_zero]
  · rw [abs_lt]
    constructor <;> norm_num

/-- Witness of amended C5: the response 00 01 00 00 00 00 on the start world. -/
theorem accel_getEvent_scaled_witness :
    Option.map (fun r => (r.1.acceleration.x, r.1.acceleration.y, r.1.acceleration.z))
        (Adafruit_LSM303_Accel_Unified.getEvent dlhc [0x00, 0x01, 0x00, 0x00, 0x00, 0x00] 0
          World.init (accel0 7))
      = some ((10529811 : ℚ) / 67108864, 0, 0) :=
  (accel_getEvent_scaled dlhc World.init (accel0 7) 0 0 0x00 0x01 0x00 0x00 0x00 0x00
    (by decide) (by decide) (by decide) (by decide) (by decide) (by decide)).2.2.2.1

/-! ## Start-up of the magnetometer -/

/-- The bus trace, the stored configuration and the result of the magnetometer `begin`, for
arguments of any size: every value goes on the bus as a byte. -/
theorem mag_begin_effect (H : Header) (gain dataRate : Nat) (w : World)
    (self : Adafruit_LSM303_Mag_Unified) :
    (Adafruit_LSM303_Mag_Unified.begin H gain dataRate w self).2.1.wire
        = w.wire ++
          [WireCall.begin,
           .beginTransmission (toByte H.LSM303_ADDRESS_MAG),
           .write (toByte H.LSM303_REGISTER_MAG_MR_REG_M), .write 0x00, .endTransmission,
           .beginTransmission (toByte H.LSM303_ADDRESS_MAG),
           .write (toByte H.LSM303_REGISTER_MAG_CRB_REG_M), .write (toByte gain),
           .endTransmission,
           .beginTransmission (toByte H.LSM303_ADDRESS_MAG),
           .write (toByte H.LSM303_REGISTER_MAG_CRA_REG_M), .write (toByte dataRate),
           .endTransmission]
      ∧ (Adafruit_LSM303_Mag_Unified.begin H gain dataRate w self).2.2
          = { self with _magGain := gain, _magDataRate := dataRate }
      ∧ (Adafruit_LSM303_Mag_Unified.begin H gain dataRate w self).1 = true := by
  have hb : ∀ n : Nat, toByte (toByte n) = toByte n := fun n => by simp [toByte]
  refine ⟨?_, ?_, ?_⟩
  · simp only [Adafruit_LSM303_Mag_Unified.begin, Adafruit_LSM303_Mag_Unified.setMagGain,
      Adafruit_LSM303_Mag_Unified.setMagDataRate, write8, World.call, hb]
    split_ifs <;> simp [toByte]
  · simp [Adafruit_LSM303_Mag_Unified.begin, Adafruit_LSM303_Mag_Unified.setMagGain,
      Adafruit_LSM303_Mag_Unified.setMagDataRate]
  · simp [Adafruit_LSM303_Mag_Unified.begin]

/-- C10: for every gain and data rate (one-byte codes), the bus calls of the magnetometer
`begin(gain, dataRate)` after `Wire.begin()` are exactly three two-byte transmissions, all to
the magnetometer device address and in this order: value 0x00 to the mode register, the gain
code to the gain register CRB, the data-rate code to the data-rate register CRA; afterwards the
stored gain and data rate are the arguments, and the call returns true. -/
theorem mag_begin_writes (H : Header) (gain dataRate : Nat) (hg : gain < 256)
    (hr : dataRate < 256) (w : World) (self : Adafruit_LSM303_Mag_Unified) :
    (Adafruit_LSM303_Mag_Unified.begin H gain dataRate w self).2.1.wire
        = w.wire ++
          [WireCall.begin,
           .beginTransmission (toByte H.LSM303_ADDRESS_MAG),
           .write (toByte H.LSM303_REGISTER_MAG_MR_REG_M), .write 0x00, .endTransmission,
           .beginTransmission (toByte H.LSM303_ADDRESS_MAG),
           .write (toByte H.LSM303_REGISTER_MAG_CRB_REG_M), .write gain, .endTransmission,
           .beginTransmission (toByte H.LSM303_ADDRESS_MAG),
           .write (toByte H.LSM303_REGISTER_MAG_CRA_REG_M), .write dataRate, .endTransmission]
      ∧ (Adafruit_LSM303_Mag_Unified.begin H gain dataRate w self).2.2._magGain = gain
      ∧ (Adafruit_LSM303_Mag_Unified.begin H gain dataRate w self).2.2._magDataRate = dataRate
      ∧ (Adafruit_LSM303_Mag_Unified.begin H gain dataRate w self).1 = true := by
  obtain ⟨h1, h2, h3⟩ := mag_begin_effect H gain dataRate w self
  rw [toByte_of_lt hg, toByte_of_lt hr] at h1
  exact ⟨h1, by rw [h2], by rw [h2], h3⟩

/-- Witness of C10: gain 1.9 (0x40) and data-rate code 3 with the data-sheet addresses. -/
theorem mag_begin_writes_witness :
    (Adafruit_LSM303_Mag_Unified.begin dlhc 0x40 3 World.init ⟨0, 0, 0, ⟨0, 0, 0, 0⟩⟩).2.1.wire
      = [WireCall.begin,
         .beginTransmission 0x1E, .write 0x02, .write 0x00, .endTransmission,
         .beginTransmission 0x1E, .write 0x01, .write 0x40, .endTransmission,
         .beginTransmission 0x1E, .write 0x00, .write 3, .endTransmission] :=
  (mag_begin_writes dlhc 0x40 3 (by decide) (by decide) World.init
    ⟨0, 0, 0, ⟨0, 0, 0, 0⟩⟩).1

/-! ## Descriptors -/

theorem LSM303_toList : "LSM303".toList = ['L', 'S', 'M', '3', '0', '3'] := rfl

/-- The name array after `memset`, `strncpy` and the final NUL holds the string LSM303 when it
has room for it. -/
theorem name_cstr (n : Nat) (h : 7 ≤ n) :
    cstr ((strncpy (List.replicate n NUL) "LSM303" (n - 1)).set (n - 1) NUL)
      = ['L', 'S', 'M', '3', '0', '3'] := by
  obtain ⟨k, rfl⟩ := Nat.exists_eq_add_of_le h
  have e : 7 + k - 1 = k + 1 + 1 + 1 + 1 + 1 + 1 := by omega
  rw [e]
  simp only [strncpy, LSM303_toList, List.cons_append, List.nil_append, List.take_succ_cons,
    List.set_cons_succ, cstr]
  cases k with
  | zero => simp [NUL]
  | succ k => simp [List.replicate_succ, NUL]

/-! ## What a call leaves alone -/

theorem write8_scale (address reg value : Nat) (w : World) :
    (write8 address reg value w).scale = w.scale := by
  simp [write8, World.call, World.scale]

theorem mag_read_frame (H : Header) (resp : List Nat) (w w1 : World)
    (self s1 : Adafruit_LSM303_Mag_Unified)
    (h : Adafruit_LSM303_Mag_Unified.read H resp w self = some (w1, s1)) :
    w1.scale = w.scale ∧ s1._sensorID = self._sensorID ∧ s1._magGain = self._magGain := by
  unfold Adafruit_LSM303_Mag_Unified.read at h
  split at h
  · obtain ⟨rfl, rfl⟩ := Prod.mk.inj (Option.some.inj h)
    exact ⟨rfl, rfl, rfl⟩
  · exact absurd h (by simp)

theorem mag_getEvent_frame (H : Header) (resp : List Nat) (now : Nat) (w w1 : World)
    (self s1 : Adafruit_LSM303_Mag_Unified) (e : sensors_event_t)
    (h : Adafruit_LSM303_Mag_Unified.getEvent H resp now w self = some (e, w1, s1)) :
    w1.scale = w.scale ∧ s1._sensorID = self._sensorID ∧ s1._magGain = self._magGain := by
  unfold Adafruit_LSM303_Mag_Unified.getEvent at h
  split at h
  · exact absurd h (by simp)
  · rename_i w2 s2 hr
    obtain ⟨-, h2⟩ := Prod.mk.inj (Option.some.inj h)
    obtain ⟨rfl, rfl⟩ := Prod.mk.inj h2
    exact mag_read_frame H resp w _ self _ hr

theorem accel_read_frame (H : Header) (resp : List Nat) (w w1 : World)
    (self s1 : Adafruit_LSM303_Accel_Unified)
    (h : Adafruit_LSM303_Accel_Unified.read H resp w self = some (w1, s1)) :
    w1.scale = w.scale ∧ s1._sensorID = self._sensorID := by
  unfold Adafruit_LSM303_Accel_Unified.read at h
  split at h
  · obtain ⟨rfl, rfl⟩ := Prod.mk.inj (Option.some.inj h)
    exact ⟨rfl, rfl⟩
  · exact absurd h (by simp)

theorem accel_getEvent_frame (H : Header) (resp : List Nat) (now : Nat) (w w1 : World)
    (self s1 : Adafruit_LSM303_Accel_Unified) (e : sensors_event_t)
    (h : Adafruit_LSM303_Accel_Unified.getEvent H resp now w self = some (e, w1, s1)) :
    w1.scale = w.scale ∧ s1._sensorID = self._sensorID := by
  unfold Adafruit_LSM303_Accel_Unified.getEvent at h
  split at h
  · exact absurd h (by simp)
  · rename_i w2 s2 hr
    obtain ⟨-, h2⟩ := Prod.mk.inj (Option.some.inj h)
    obtain ⟨rfl, rfl⟩ := Prod.mk.inj h2
    exact accel_read_frame H resp w _ self _ hr

theorem setMagGain_sensorID (H : Header) (gain : Nat) (w : World)
    (self : Adafruit_LSM303_Mag_Unified) :
    (Adafruit_LSM303_Mag_Unified.setMagGain H gain w self).2._sensorID = self._sensorID := by
  rw [setMagGain_self]

theorem mag_begin_scale (H : Header) (gain dataRate : Nat) (w : World)
    (self : Adafruit_LSM303_Mag_Unified) :
    (Adafruit_LSM303_Mag_Unified.begin H gain dataRate w self).2.1.scale
      = (Adafruit_LSM303_Mag_Unified.setMagGain H gain w self).1.scale := by
  simp only [Adafruit_LSM303_Mag_Unified.begin, Adafruit_LSM303_Mag_Unified.setMagDataRate,
    write8_scale]
  simp only [Adafruit_LSM303_Mag_Unified.setMagGain, World.scale, write8, World.call]
  split_ifs <;> rfl

/-- A call leaves the constructor's `_sensorID` in every object. -/
theorem step_sensorID (H : Header) (s s1 : Sketch) (c : Call) (h : s.step H c = some s1) :
    (∀ k, (s1.accel k)._sensorID = (s.accel k)._sensorID)
      ∧ (∀ k, (s1.mag k)._sensorID = (s.mag k)._sensorID) := by
  cases c with
  | accelBegin i dataRate =>
    simp only [Sketch.step, Option.some.injEq] at h
    subst h
    refine ⟨fun k => ?_, fun k => rfl⟩
    by_cases hk : k = i
    · subst hk
      simp [Adafruit_LSM303_Accel_Unified.begin, Adafruit_LSM303_Accel_Unified.setAccelDataRate]
    · simp [Function.update_noteq hk]
  | setAccelDataRate i dataRate =>
    simp only [Sketch.step, Option.some.injEq] at h
    subst h
    refine ⟨fun k => ?_, fun k => rfl⟩
    by_cases hk : k = i
    · subst hk
      simp [Adafruit_LSM303_Accel_Unified.setAccelDataRate]
    · simp [Function.update_noteq hk]
  | accelGetEvent i resp now =>
    simp only [Sketch.step, Option.map_eq_some'] at h
    obtain ⟨⟨e, w1, a1⟩, hr, rfl⟩ := h
    refine ⟨fun k => ?_, fun k => rfl⟩
    by_cases hk : k = i
    · subst hk
      simpa using (accel_getEvent_frame H resp now _ _ _ _ _ hr).2
    · simp [Function.update_noteq hk]
  | accelGetSensor i =>
    simp only [Sketch.step, Option.some.injEq] at h
    subst h
    refine ⟨fun k => ?_, fun k => rfl⟩
    by_cases hk : k = i
    · subst hk
      simp [Adafruit_LSM303_Accel_Unified.getSensor]
    · simp [Function.update_noteq hk]
  | magBegin i gain dataRate =>
    simp only [Sketch.step, Option.some.injEq] at h
    subst h
    refine ⟨fun k => rfl, fun k => ?_⟩
    by_cases hk : k = i
    · subst hk
      simp [(mag_begin_effect H gain dataRate s.world (s.mag k)).2.1]
    · simp [Function.update_noteq hk]
  | setMagGain i gain =>
    simp only [Sketch.step, Option.some.injEq] at h
    subst h
    refine ⟨fun k => rfl, fun k => ?_⟩
    by_cases hk : k = i
    · subst hk
      simp [setMagGain_self]
    · simp [Function.update_noteq hk]
  | setMagDataRate i dataRate =>
    simp only [Sketch.step, Option.some.injEq] at h
    subst h
    refine ⟨fun k => rfl, fun k => ?_⟩
    by_cases hk : k = i
    · subst hk
      simp [Adafruit_LSM303_Mag_Unified.setMagDataRate]
    · simp [Function.update_noteq hk]
  | magGetEvent i resp now =>
    simp only [Sketch.step, Option.map_eq_some'] at h
    obtain ⟨⟨e, w1, a1⟩, hr, rfl⟩ := h
    refine ⟨fun k => rfl, fun k => ?_⟩
    by_cases hk : k = i
    · subst hk
      simpa using (mag_getEvent_frame H resp now _ _ _ _ _ hr).2.1
    · simp [Function.update_noteq hk]
  | magGetSensor i =>
    simp only [Sketch.step, Option.some.injEq] at h
    subst h
    refine ⟨fun k => rfl, fun k => ?_⟩
    by_cases hk : k = i
    · subst hk
      simp [Adafruit_LSM303_Mag_Unified.getSensor]
    · simp [Function.update_noteq hk]

theorem run_sensorID (H : Header) (cs : List Call) :
    ∀ s s1 : Sketch, Sketch.run H cs s = some s1 →
      (∀ k, (s1.accel k)._sensorID = (s.accel k)._sensorID)
        ∧ (∀ k, (s1.mag k)._sensorID = (s.mag k)._sensorID) := by
  induction cs with
  | nil =>
    intro s s1 h
    simp only [Sketch.run, Option.some.injEq] at h
    subst h
    exact ⟨fun _ => rfl, fun _ => rfl⟩
  | cons c cs ih =>
    intro s s1 h
    simp only [Sketch.run, Option.bind_eq_some] at h
    obtain ⟨s2, h2, h3⟩ := h
    have a := step_sensorID H s s2 c h2
    have b := ih s2 s1 h3
    exact ⟨fun k => (b.1 k).trans (a.1 k), fun k => (b.2 k).trans (a.2 k)⟩

/-- C9: `getSensor` returns fixed identity fields and changes nothing: from every state the
accelerometer descriptor has name LSM303, version 1, the object's sensor id, type
accelerometer, and min_delay, min_value, max_value and resolution zero; the magnetometer
descriptor is the same except for type magnetic field; world and object are the same after
the call as before; and the sensor id is the one given to the constructor, after any
sequence of method calls. -/
theorem getSensor_descriptor (H : Header) (hn : 7 ≤ H.sizeof_name) (w : World)
    (a : Adafruit_LSM303_Accel_Unified) (m : Adafruit_LSM303_Mag_Unified) :
    (cstr (Adafruit_LSM303_Accel_Unified.getSensor H w a).1.name = "LSM303".toList
        ∧ (Adafruit_LSM303_Accel_Unified.getSensor H w a).1.version = 1
        ∧ (Adafruit_LSM303_Accel_Unified.getSensor H w a).1.sensor_id = a._sensorID
        ∧ (Adafruit_LSM303_Accel_Unified.getSensor H w a).1.type = H.SENSOR_TYPE_ACCELEROMETER
        ∧ (Adafruit_LSM303_Accel_Unified.getSensor H w a).1.min_delay = 0
        ∧ (Adafruit_LSM303_Accel_Unified.getSensor H w a).1.min_value = 0
        ∧ (Adafruit_LSM303_Accel_Unified.getSensor H w a).1.max_value = 0
        ∧ (Adafruit_LSM303_Accel_Unified.getSensor H w a).1.resolution = 0
        ∧ (Adafruit_LSM303_Accel_Unified.getSensor H w a).2 = (w, a))
      ∧ ((Adafruit_LSM303_Mag_Unified.getSensor H w m).1
            = { (Adafruit_LSM303_Accel_Unified.getSensor H w a).1 with
                sensor_id := m._sensorID, type := H.SENSOR_TYPE_MAGNETIC_FIELD }
        ∧ (Adafruit_LSM303_Mag_Unified.getSensor H w m).2 = (w, m))
      ∧ (∀ (aid mid : Nat → Int) (amem : Nat → Adafruit_LSM303_Accel_Unified)
          (mmem : Nat → Adafruit_LSM303_Mag_Unified) (cs : List Call) (s : Sketch) (k : Nat),
          Sketch.run H cs
              (Sketch.boot (fun i => Adafruit_LSM303_Accel_Unified.new (aid i) (amem i))
                (fun i => Adafruit_LSM303_Mag_Unified.new (mid i) (mmem i))) = some s →
            (Adafruit_LSM303_Accel_Unified.getSensor H s.world (s.accel k)).1.sensor_id = aid k
              ∧ (Adafruit_LSM303_Mag_Unified.getSensor H s.world (s.mag k)).1.sensor_id
                  = mid k) := by
  refine ⟨⟨?_, rfl, rfl, rfl, rfl, rfl, rfl, rfl, rfl⟩, ⟨rfl, rfl⟩, ?_⟩
  · simpa [Adafruit_LSM303_Accel_Unified.getSensor, sensor_t.zero, LSM303_toList]
      using name_cstr H.sizeof_name hn
  · intro aid mid amem mmem cs s k hrun
    have h := run_sensorID H cs _ s hrun
    exact ⟨(h.1 k).trans rfl, (h.2 k).trans rfl⟩

/-- Witness of C9: the descriptors of two fresh objects with the 12-byte name array. -/
theorem getSensor_descriptor_witness :
    7 ≤ dlhc.sizeof_name
      ∧ cstr (Adafruit_LSM303_Accel_Unified.getSensor dlhc World.init
          (Adafruit_LSM303_Accel_Unified.new 54321 ⟨0, 0, ⟨0, 0, 0⟩⟩)).1.name = "LSM303".toList
      ∧ (Adafruit_LSM303_Mag_Unified.getSensor dlhc World.init
          (Adafruit_LSM303_Mag_Unified.new 12345 ⟨0, 0, 0, ⟨0, 0, 0, 0⟩⟩)).2
        = (World.init, Adafruit_LSM303_Mag_Unified.new 12345 ⟨0, 0, 0, ⟨0, 0, 0, 0⟩⟩) :=
  ⟨by decide,
   (getSensor_descriptor dlhc (by decide) World.init
      (Adafruit_LSM303_Accel_Unified.new 54321 ⟨0, 0, ⟨0, 0, 0⟩⟩)
      (Adafruit_LSM303_Mag_Unified.new 12345 ⟨0, 0, 0, ⟨0, 0, 0, 0⟩⟩)).1.1,
   (getSensor_descriptor dlhc (by decide) World.init
      (Adafruit_LSM303_Accel_Unified.new 54321 ⟨0, 0, ⟨0, 0, 0⟩⟩)
      (Adafruit_LSM303_Mag_Unified.new 12345 ⟨0, 0, 0, ⟨0, 0, 0, 0⟩⟩)).2.1.2⟩

/-! ## The scale variables along a program -/

/-- A call that configures no gain leaves the scale variables and every stored gain. -/
theorem step_no_gainConfig (H : Header) (s s1 : Sketch) (c : Call) (hc : c.gainConfig = none)
    (h : s.step H c = some s1) :
    s1.world.scale = s.world.scale ∧ ∀ k, (s1.mag k)._magGain = (s.mag k)._magGain := by
  cases c with
  | accelBegin i dataRate =>
    simp only [Sketch.step, Option.some.injEq] at h
    subst h
    exact ⟨by simp [Adafruit_LSM303_Accel_Unified.begin,
      Adafruit_LSM303_Accel_Unified.setAccelDataRate, write8, World.scale, World.call],
      fun _ => rfl⟩
  | setAccelDataRate i dataRate =>
    simp only [Sketch.step, Option.some.injEq] at h
    subst h
    exact ⟨by simp [Adafruit_LSM303_Accel_Unified.setAccelDataRate, write8_scale],
      fun _ => rfl⟩
  | accelGetEvent i resp now =>
    simp only [Sketch.step, Option.map_eq_some'] at h
    obtain ⟨⟨e, w1, a1⟩, hr, rfl⟩ := h
    exact ⟨(accel_getEvent_frame H resp now _ _ _ _ _ hr).1, fun _ => rfl⟩
  | accelGetSensor i =>
    simp only [Sketch.step, Option.some.injEq] at h
    subst h
    exact ⟨rfl, fun _ => rfl⟩
  | magBegin i gain dataRate => simp [Call.gainConfig] at hc
  | setMagGain i gain => simp [Call.gainConfig] at hc
  | setMagDataRate i dataRate =>
    simp only [Sketch.step, Option.some.injEq] at h
    subst h
    refine ⟨by simp [Adafruit_LSM303_Mag_Unified.setMagDataRate, write8_scale], fun k => ?_⟩
    by_cases hk : k = i
    · subst hk
      simp [Adafruit_LSM303_Mag_Unified.setMagDataRate]
    · simp [Function.update_noteq hk]
  | magGetEvent i resp now =>
    simp only [Sketch.step, Option.map_eq_some'] at h
    obtain ⟨⟨e, w1, a1⟩, hr, rfl⟩ := h
    refine ⟨(mag_getEvent_frame H resp now _ _ _ _ _ hr).1, fun k => ?_⟩
    by_cases hk : k = i
    · subst hk
      simpa using (mag_getEvent_frame H resp now _ _ _ _ _ hr).2.2
    · simp [Function.update_noteq hk]
  | magGetSensor i =>
    simp only [Sketch.step, Option.some.injEq] at h
    subst h
    refine ⟨rfl, fun k => ?_⟩
    by_cases hk : k = i
    · subst hk
      simp [Adafruit_LSM303_Mag_Unified.getSensor]
    · simp [Function.update_noteq hk]

/-- A call that configures gain `g` on object `i` returns, stores `g` in that object, sets the
scale variables as `setMagGain` does, and leaves the other magnetometer objects. -/
theorem step_gainConfig (H : Header) (s : Sketch) (c : Call) (i g : Nat)
    (hc : c.gainConfig = some (i, g)) :
    ∃ s1, s.step H c = some s1 ∧ (s1.mag i)._magGain = g
      ∧ s1.world.scale = (Adafruit_LSM303_Mag_Unified.setMagGain H g s.world (s.mag i)).1.scale
      ∧ ∀ k, k ≠ i → s1.mag k = s.mag k := by
  cases c with
  | magBegin j gain dataRate =>
    simp only [Call.gainConfig, Option.some.injEq, Prod.mk.injEq] at hc
    obtain ⟨rfl, rfl⟩ := hc
    refine ⟨_, rfl, ?_, ?_, fun k hk => ?_⟩
    · simp [(mag_begin_effect H gain dataRate s.world (s.mag j)).2.1]
    · simp only [mag_begin_scale]
    · simp [Function.update_noteq hk]
  | setMagGain j gain =>
    simp only [Call.gainConfig, Option.some.injEq, Prod.mk.injEq] at hc
    obtain ⟨rfl, rfl⟩ := hc
    refine ⟨_, rfl, ?_, rfl, fun k hk => ?_⟩
    · simp [setMagGain_self]
    · simp [Function.update_noteq hk]
  | accelBegin _ _ => simp [Call.gainConfig] at hc
  | setAccelDataRate _ _ => simp [Call.gainConfig] at hc
  | accelGetEvent _ _ _ => simp [Call.gainConfig] at hc
  | accelGetSensor _ => simp [Call.gainConfig] at hc
  | setMagDataRate _ _ => simp [Call.gainConfig] at hc
  | magGetEvent _ _ _ => simp [Call.gainConfig] at hc
  | magGetSensor _ => simp [Call.gainConfig] at hc

theorem run_no_gainConfig (H : Header) (cs : List Call) :
    ∀ s s1 : Sketch, lastGainConfig cs = none → Sketch.run H cs s = some s1 →
      s1.world.scale = s.world.scale ∧ ∀ k, (s1.mag k)._magGain = (s.mag k)._magGain := by
  induction cs with
  | nil =>
    intro s s1 _ h
    simp only [Sketch.run, Option.some.injEq] at h
    subst h
    exact ⟨rfl, fun _ => rfl⟩
  | cons c cs ih =>
    intro s s1 hl h
    simp only [Sketch.run, Option.bind_eq_some] at h
    obtain ⟨s2, h2, h3⟩ := h
    simp only [lastGainConfig] at hl
    cases hcs : lastGainConfig cs with
    | some p => simp [hcs] at hl
    | none =>
      simp only [hcs] at hl
      have a := step_no_gainConfig H s s2 c hl h2
      have b := ih s2 s1 hcs h3
      exact ⟨b.1.trans a.1, fun k => (b.2 k).trans (a.2 k)⟩

/-- After a program whose most recent gain configuration set level `L` on object `i`, that
object stores the level's enumerator and the scale variables hold the level's table entry. -/
theorem run_lastGainConfig (H : Header) (hd : H.DistinctGains) (L : GainLevel) (i : Nat)
    (cs : List Call) :
    ∀ s s1 : Sketch, Sketch.run H cs s = some s1 → lastGainConfig cs = some (i, L.code H) →
      (s1.mag i)._magGain = L.code H ∧ s1.world.scale = L.scale := by
  induction cs with
  | nil =>
    intro s s1 _ hl
    simp [lastGainConfig] at hl
  | cons c cs ih =>
    intro s s1 h hl
    simp only [Sketch.run, Option.bind_eq_some] at h
    obtain ⟨s2, h2, h3⟩ := h
    simp only [lastGainConfig] at hl
    cases hcs : lastGainConfig cs with
    | some p =>
      simp only [hcs, Option.some.injEq] at hl
      subst hl
      exact ih s2 s1 h3 hcs
    | none =>
      simp only [hcs] at hl
      obtain ⟨s3, h4, hg, hsc, -⟩ := step_gainConfig H s c i (L.code H) hl
      rw [h4, Option.some.injEq] at h2
      subst h2
      have b := run_no_gainConfig H cs _ s1 hcs h3
      exact ⟨(b.2 i).trans hg, b.1.trans (hsc.trans (setMagGain_scale H hd L _ _))⟩

/-- The vector of a magnetometer event depends on the world through the scale variables
only. -/
theorem mag_getEvent_vector3_congr (H : Header) (resp : List Nat) (now : Nat) (w w1 : World)
    (self : Adafruit_LSM303_Mag_Unified) (h : w1.scale = w.scale) :
    vector3 (Adafruit_LSM303_Mag_Unified.getEvent H resp now w1 self)
      = vector3 (Adafruit_LSM303_Mag_Unified.getEvent H resp now w self) := by
  simp only [World.scale, Prod.mk.injEq] at h
  rcases resp with _ | ⟨r0, _ | ⟨r1, _ | ⟨r2, _ | ⟨r3, _ | ⟨r4, _ | ⟨r5, rest⟩⟩⟩⟩⟩⟩ <;>
    simp [vector3, Adafruit_LSM303_Mag_Unified.getEvent, Adafruit_LSM303_Mag_Unified.read,
      World.call, h.1, h.2]

/-- Counterexample to C6 as stated: object 0 is configured with gain 1.3, then object 1 with
gain 8.1; the gain most recently configured on object 0, also the one it stores, is 1.3, but
the scale variables its `getEvent` reads hold (230, 205), not the entry (1100, 980). And on
one object alone, gain 1.9 followed by the value 0x10, which is no enumerator, leaves the
stored gain 0x10 beside the scale variables (855, 760) of gain 1.9. -/
theorem scale_of_other_object_counterexample :
    (Sketch.run dlhc [.magBegin 0 0x20 0, .setMagGain 1 0xE0] boot0).map
        (fun s => ((s.mag 0)._magGain, s.world.scale)) = some (0x20, ((230 : ℚ), (205 : ℚ)))
      ∧ lastGainOn 0 [.magBegin 0 0x20 0, .setMagGain 1 0xE0] = some 0x20
      ∧ GainLevel.g1_3.code dlhc = 0x20
      ∧ GainLevel.g1_3.scale = (1100, 980)
      ∧ ((230 : ℚ), (205 : ℚ)) ≠ (1100, 980)
      ∧ (Sketch.run dlhc [.setMagGain 0 0x40, .setMagGain 0 0x10] boot0).map
          (fun s => ((s.mag 0)._magGain, s.world.scale)) = some (0x10, ((855 : ℚ), (760 : ℚ)))
      ∧ 0x10 ∉ dlhc.magGains := by
  refine ⟨?_, by decide, rfl, rfl, by norm_num, ?_, by decide⟩
  · simp [Sketch.run, Sketch.step, boot0, Sketch.boot, mag0, Adafruit_LSM303_Mag_Unified.new,
      Adafruit_LSM303_Mag_Unified.begin, Adafruit_LSM303_Mag_Unified.setMagGain,
      Adafruit_LSM303_Mag_Unified.setMagDataRate, write8, World.call, World.scale, dlhc]
  · simp [Sketch.run, Sketch.step, boot0, Sketch.boot, mag0, Adafruit_LSM303_Mag_Unified.new,
      Adafruit_LSM303_Mag_Unified.setMagGain, write8, World.call, World.scale, dlhc]

/-- C6, amended: in every state reached by a sequence of begin, setMagGain, setMagDataRate,
getEvent and getSensor calls on any objects, once a gain has been configured, if the gain
most recently configured, on whichever magnetometer object, is one of the seven levels, then
the scale variables read by the `getEvent` of every magnetometer object hold that level's
table entry, the object that was configured stores that gain, and the event of every
magnetometer object is the one computed with that entry as scale. -/
theorem scale_of_last_gainConfig (H : Header) (hd : H.DistinctGains) (cs : List Call)
    (s0 s : Sketch) (i : Nat) (L : GainLevel)
    (hrun : Sketch.run H cs s0 = some s) (hlast : lastGainConfig cs = some (i, L.code H)) :
    (s.mag i)._magGain = L.code H
      ∧ s.world.scale = L.scale
      ∧ ∀ (j : Nat) (resp : List Nat) (now : Nat) (w : World), w.scale = L.scale →
          vector3 (Adafruit_LSM303_Mag_Unified.getEvent H resp now s.world (s.mag j))
            = vector3 (Adafruit_LSM303_Mag_Unified.getEvent H resp now w (s.mag j)) := by
  obtain ⟨hg, hs⟩ := run_lastGainConfig H hd L i cs s0 s hrun hlast
  refine ⟨hg, hs, ?_⟩
  intro j resp now w hw
  exact mag_getEvent_vector3_congr H resp now w s.world (s.mag j) (hs.trans hw.symm)

/-- Witness of amended C6: gain 1.3 on object 0, gain 8.1 on object 1, then a descriptor
query. -/
theorem scale_of_last_gainConfig_witness :
    dlhc.DistinctGains
      ∧ lastGainConfig [.magBegin 0 0x20 0, .setMagGain 1 0xE0, .magGetSensor 0]
          = some (1, GainLevel.g8_1.code dlhc)
      ∧ ∃ s, Sketch.run dlhc [.magBegin 0 0x20 0, .setMagGain 1 0xE0, .magGetSensor 0] boot0
            = some s
          ∧ (s.mag 1)._magGain = GainLevel.g8_1.code dlhc ∧ s.world.scale = GainLevel.g8_1.scale :=
  ⟨by decide, by decide, _, rfl,
    (scale_of_last_gainConfig dlhc (by decide)
      [.magBegin 0 0x20 0, .setMagGain 1 0xE0, .magGetSensor 0] boot0 _ 1 GainLevel.g8_1 rfl
      (by decide)).1,
    (scale_of_last_gainConfig dlhc (by decide)
      [.magBegin 0 0x20 0, .setMagGain 1 0xE0, .magGetSensor 0] boot0 _ 1 GainLevel.g8_1 rfl
      (by decide)).2.1⟩

/-- Counterexample to C7 as stated: object A holds gain 1.3 and reads the response
00 64 00 32 00 0A; without a call on object B its event is
(9532509/1048576, 7626007/8388608, 10699755/2097152), about (9.09, 0.909, 5.10); after
`setMagGain` with gain 8.1 on B the scale variables are (230, 205) instead of (1100, 980) and
the event of A for the same response is (11397565/262144, 2279513/524288, 1598439/65536),
about (43.5, 4.35, 24.4). -/
theorem shared_scale_counterexample :
    vector3 (Adafruit_LSM303_Mag_Unified.getEvent dlhc [0x00, 0x64, 0x00, 0x32, 0x00, 0x0A] 0
        (Adafruit_LSM303_Mag_Unified.setMagGain dlhc 0x20 World.init (mag0 1)).1
        (Adafruit_LSM303_Mag_Unified.setMagGain dlhc 0x20 World.init (mag0 1)).2)
        = some ((9532509 : ℚ) / 1048576, (7626007 : ℚ) / 8388608, (10699755 : ℚ) / 2097152)
      ∧ vector3 (Adafruit_LSM303_Mag_Unified.getEvent dlhc [0x00, 0x64, 0x00, 0x32, 0x00, 0x0A] 0
          (Adafruit_LSM303_Mag_Unified.setMagGain dlhc 0xE0
            (Adafruit_LSM303_Mag_Unified.setMagGain dlhc 0x20 World.init (mag0 1)).1 (mag0 2)).1
          (Adafruit_LSM303_Mag_Unified.setMagGain dlhc 0x20 World.init (mag0 1)).2)
        = some ((11397565 : ℚ) / 262144, (2279513 : ℚ) / 524288, (1598439 : ℚ) / 65536)
      ∧ (Adafruit_LSM303_Mag_Unified.setMagGain dlhc 0xE0
            (Adafruit_LSM303_Mag_Unified.setMagGain dlhc 0x20 World.init (mag0 1)).1
            (mag0 2)).1.scale
          ≠ (Adafruit_LSM303_Mag_Unified.setMagGain dlhc 0x20 World.init (mag0 1)).1.scale
      ∧ ((11397565 : ℚ) / 262144, (2279513 : ℚ) / 524288, (1598439 : ℚ) / 65536)
          ≠ ((9532509 : ℚ) / 1048576, (7626007 : ℚ) / 8388608, (10699755 : ℚ) / 2097152) := by
  have e1 : (Adafruit_LSM303_Mag_Unified.setMagGain dlhc 0x20 World.init (mag0 1)).1.scale
      = (1100, 980) := setMagGain_scale dlhc (by decide) .g1_3 _ _
  have e2 : (Adafruit_LSM303_Mag_Unified.setMagGain dlhc 0xE0
      (Adafruit_LSM303_Mag_Unified.setMagGain dlhc 0x20 World.init (mag0 1)).1 (mag0 2)).1.scale
      = (230, 205) := setMagGain_scale dlhc (by decide) .g8_1 _ _
  refine ⟨?_, ?_, ?_, by norm_num⟩
  · rw [mag_getEvent_vector3 dlhc 0 _ _ (by norm_num) (by norm_num) (by norm_num) (by norm_num)
        (by norm_num) (by norm_num), e1,
      mag_axis_eval_100_1100 _ _ (by decide) rfl, mag_axis_eval_10_1100 _ _ (by decide) rfl,
      mag_axis_eval_50_980 _ _ (by decide) rfl]
  · rw [mag_getEvent_vector3 dlhc 0 _ _ (by norm_num) (by norm_num) (by norm_num) (by norm_num)
        (by norm_num) (by norm_num), e2,
      mag_axis_eval_100_230 _ _ (by decide) rfl, mag_axis_eval_10_230 _ _ (by decide) rfl,
      mag_axis_eval_50_205 _ _ (by decide) rfl]
  · rw [e1, e2]
    norm_num

/-- C7, amended: the stored gain, data rate, sensor id and last raw sample of a magnetometer
object A are its own, and a `setMagGain` or `begin` on another object B returns and leaves
them unchanged; the XY/Z scale variables are shared by all objects: after the call on B with
one of the seven levels they hold that level's table entry, so the next event of A is the one
computed with that entry as scale, and after a call with a gain outside the enumeration they,
and the next event of A for any response, are unchanged. -/
theorem other_object_shares_scale (H : Header) (hd : H.DistinctGains) (s : Sketch)
    (A B : Nat) (hAB : A ≠ B) (c : Call) (g : Nat) (hc : c.gainConfig = some (B, g)) :
    ∃ s1, s.step H c = some s1
      ∧ s1.mag A = s.mag A
      ∧ (∀ L : GainLevel, L.code H = g →
          s1.world.scale = L.scale
            ∧ ∀ (resp : List Nat) (now : Nat) (w : World), w.scale = L.scale →
                vector3 (Adafruit_LSM303_Mag_Unified.getEvent H resp now s1.world (s1.mag A))
                = vector3 (Adafruit_LSM303_Mag_Unified.getEvent H resp now w (s.mag A)))
      ∧ (g ∉ H.magGains →
          s1.world.scale = s.world.scale
            ∧ ∀ (resp : List Nat) (now : Nat),
                vector3 (Adafruit_LSM303_Mag_Unified.getEvent H resp now s1.world (s1.mag A))
                = vector3 (Adafruit_LSM303_Mag_Unified.getEvent H resp now s.world
                    (s.mag A))) := by
  obtain ⟨s1, h1, -, hsc, hk⟩ := step_gainConfig H s c B g hc
  refine ⟨s1, h1, hk A hAB, ?_, ?_⟩
  · intro L hL
    subst hL
    have hs : s1.world.scale = L.scale := hsc.trans (setMagGain_scale H hd L _ _)
    refine ⟨hs, ?_⟩
    intro resp now w hw
    rw [hk A hAB]
    exact mag_getEvent_vector3_congr H resp now _ _ _ (hs.trans hw.symm)
  · intro hg
    have hs : s1.world.scale = s.world.scale :=
      hsc.trans (setMagGain_scale_of_not_mem H g hg _ _)
    refine ⟨hs, ?_⟩
    intro resp now
    rw [hk A hAB]
    exact mag_getEvent_vector3_congr H resp now _ _ _ hs

/-- Witness of amended C7: after gain 1.3 on object 1, `setMagGain` with gain 8.1 on
object 2. -/
theorem other_object_shares_scale_witness :
    dlhc.DistinctGains ∧ (1 : Nat) ≠ 2 ∧ (Call.setMagGain 2 0xE0).gainConfig = some (2, 0xE0)
      ∧ ∃ s1, boot0.step dlhc (Call.setMagGain 2 0xE0) = some s1 ∧ s1.mag 1 = boot0.mag 1 :=
  ⟨by decide, by decide, rfl,
    (other_object_shares_scale dlhc (by decide) boot0 1 2 (by decide) (Call.setMagGain 2 0xE0)
      0xE0 rfl).imp (fun _ h => ⟨h.1, h.2.1⟩)⟩

end LSM303
